import Mathlib

/-!
# Verification of the `reflect` gRPC browser (bnprtr/reflect)

This development shallowly embeds the parts of the Go program that the
specification talks about:

* the gRPC-Web frame encoder/parser of `internal/tryit/grpcweb.go`;
* the three invoker pipelines (`ConnectInvoker`, `GRPCInvoker`,
  `GRPCWebInvoker`) with each call to an external library (protojson,
  proto, net/http, grpc, base64) represented by an oracle value supplied
  as an explicit argument, so the pipelines themselves are pure functions
  of the request plus those outcomes;
* the `/api/tryit/invoke` handler dispatch of
  `internal/server/handlers_tryit.go`;
* header filtering from `internal/tryit/security.go`;
* configuration validation from `internal/config`;
* example-JSON generation from `internal/descriptor/examplejson.go`.

Go byte slices are `List Nat` (each element a byte value), Go `int` /
`int64` are `Int`, Go maps appear as association lists, and Go functions
returning `(T, error)` become `Except String T`.
-/

namespace Reflect

/-! ## Byte-level helpers (encoding/binary, big-endian) -/

/-- `binary.BigEndian.Uint32` on four bytes. -/
def bigEndian4 (b3 b2 b1 b0 : Nat) : Nat :=
  ((b3 * 256 + b2) * 256 + b1) * 256 + b0

/-- `binary.BigEndian.PutUint32` applied to `uint32(n)`: the Go code first
truncates the length to 32 bits (`uint32(len(requestBytes))`) and then
splits it into four big-endian bytes. -/
def encodeUint32BE (n : Nat) : List Nat :=
  let v := n % 4294967296
  [v / 16777216, v / 65536 % 256, v / 256 % 256, v % 256]

/-! ## gRPC-Web framing (`internal/tryit/grpcweb.go`) -/

/-- The request frame built by `GRPCWebInvoker.Invoke`: one compression
flag byte `0`, four big-endian length bytes, then the payload. -/
def encodeGRPCWebFrame (payload : List Nat) : List Nat :=
  0 :: (encodeUint32BE payload.length ++ payload)

/-- The loop body of `parseGRPCWebFrame`.  `totalLen` is `len(data)` and
`consumed` the current absolute offset, kept only to reproduce the error
message; `acc` is the `messageData` accumulated so far (the payload of the
last data frame seen).  A remainder shorter than five bytes is the Go
`break` (incomplete frame header): the loop stops silently.  A complete
header whose declared length exceeds the remaining bytes is the explicit
`incomplete frame` error.  Data frames (flag `0x00`) replace `acc`; trailer
frames (flag `0x80`) and unknown flags are skipped.

Each iteration of the Go loop advances the offset by at least five bytes,
so the loop runs at most `len(data)` times; the `gas` argument (always
called with `gas ≥ remaining.length`, and with `gas = len(data)` from
`parseGRPCWebFrame`) only makes that bound structural and never changes
the result. -/
def grpcWebFrameLoop (gas totalLen consumed : Nat) (remaining acc : List Nat) :
    Except String (List Nat) :=
  match gas, remaining with
  | g + 1, flag :: b3 :: b2 :: b1 :: b0 :: rest =>
    let frameLength := bigEndian4 b3 b2 b1 b0
    if frameLength > rest.length then
      .error ("incomplete frame: expected " ++ toString (consumed + 5 + frameLength) ++
        " bytes, got " ++ toString totalLen)
    else
      let frameData := rest.take frameLength
      let rest2 := rest.drop frameLength
      if flag = 0 then
        grpcWebFrameLoop g totalLen (consumed + 5 + frameLength) rest2 frameData
      else
        grpcWebFrameLoop g totalLen (consumed + 5 + frameLength) rest2 acc
  | _, _ => .ok acc

/-- `GRPCWebInvoker.parseGRPCWebFrame`: returns the payload of the last
data frame, `[]` when there is none (Go `nil`). -/
def parseGRPCWebFrame (data : List Nat) : Except String (List Nat) :=
  if data.isEmpty then .ok []
  else grpcWebFrameLoop data.length data.length 0 data []

/-! ## Strings, headers, status codes -/

instance {ε α : Type} [DecidableEq ε] [DecidableEq α] : DecidableEq (Except ε α) :=
  fun a b =>
    match a, b with
    | .ok x, .ok y => if h : x = y then .isTrue (by rw [h]) else .isFalse (by simp [h])
    | .error x, .error y => if h : x = y then .isTrue (by rw [h]) else .isFalse (by simp [h])
    | .ok _, .error _ => .isFalse (by simp)
    | .error _, .ok _ => .isFalse (by simp)

/-- ASCII lowering of one character (the range `strings.ToLower` touches
for HTTP header names and config values, which are ASCII tokens). -/
def charToLower (c : Char) : Char :=
  if 65 ≤ c.toNat ∧ c.toNat ≤ 90 then Char.ofNat (c.toNat + 32) else c

/-- `strings.ToLower` on the ASCII strings this program lowercases. -/
def strToLower (s : String) : String :=
  String.mk (s.data.map charToLower)

/-- `strings.Contains`. -/
def strContains (s sub : String) : Bool :=
  decide (sub.toList <:+: s.toList)

/-- `http.Header.Get`: the first value stored under the (canonicalised,
hence case-insensitively matched) key, `""` when absent.  Response header
maps are association lists from names to value lists. -/
def headerGet (h : List (String × List String)) (k : String) : String :=
  match h.find? (fun kv => strToLower kv.1 = strToLower k) with
  | some (_, v :: _) => v
  | _ => ""

/-- Digit run to number, as `strconv` accumulates base-10 digits. -/
def digitsToNat (l : List Char) : Nat :=
  l.foldl (fun a c => a * 10 + (c.toNat - 48)) 0

/-- `strconv.Atoi`: optional sign, non-empty digit run, 64-bit range;
anything else is an error (the concrete `*NumError` is irrelevant here). -/
def atoi (s : String) : Except Unit Int :=
  let step : Bool × List Char :=
    match s.toList with
    | '+' :: t => (false, t)
    | '-' :: t => (true, t)
    | t => (false, t)
  let neg := step.1
  let ds := step.2
  if ds = [] then .error ()
  else if ds.all Char.isDigit then
    let n : Nat := digitsToNat ds
    if neg then
      if n > 2 ^ 63 then .error () else .ok (-(n : Int))
    else
      if n ≥ 2 ^ 63 then .error () else .ok (n : Int)
  else .error ()

/-- `GRPCWebInvoker.extractGRPCStatus`: reads `grpc-status` from the
response headers; absence means `0` (OK), an unparsable value means
`codes.Unknown = 2`. -/
def extractGRPCStatus (headers : List (String × List String)) : Int :=
  let statusStr := headerGet headers "grpc-status"
  if statusStr = "" then 0
  else
    match atoi statusStr with
    | .error _ => 2
    | .ok n => n

/-- `google.golang.org/grpc/codes.Code.String()`.  `codes.Code` is a
`uint32`, so an `int` status is first wrapped modulo 2^32. -/
def codeString (n : Int) : String :=
  match (n % 4294967296).toNat with
  | 0 => "OK"
  | 1 => "Canceled"
  | 2 => "Unknown"
  | 3 => "InvalidArgument"
  | 4 => "DeadlineExceeded"
  | 5 => "NotFound"
  | 6 => "AlreadyExists"
  | 7 => "PermissionDenied"
  | 8 => "ResourceExhausted"
  | 9 => "FailedPrecondition"
  | 10 => "Aborted"
  | 11 => "OutOfRange"
  | 12 => "Unimplemented"
  | 13 => "Internal"
  | 14 => "Unavailable"
  | 15 => "DataLoss"
  | 16 => "Unauthenticated"
  | u => "Code(" ++ toString u ++ ")"

/-! ## Requests, responses, transports (`internal/tryit`) -/

/-- `tryit.Request`.  `method` is `none` for a nil `MethodDescriptor`,
otherwise it carries `MethodFullName()` (the `package.Service/Method`
string, which is all the invokers read from the descriptor besides the
dynamic messages that the oracles stand in for).  `timeout` is the Go
duration as an integer; `Latency` is wall-clock time and is not
modelled. -/
structure Request where
  environment : String
  method : Option String
  jsonBody : String
  headers : List (String × String)
  baseURL : String
  timeout : Int
  insecureSkipVerify : Bool
deriving Repr, DecidableEq

/-- `Request.Validate`. -/
def requestValidate (r : Request) : Option String :=
  if r.environment = "" then some "environment is required"
  else if r.method = none then some "method descriptor is required"
  else if r.baseURL = "" then some "base URL is required"
  else if r.timeout ≤ 0 then some "timeout must be positive"
  else none

/-- `Request.MethodFullName` (empty for a nil descriptor). -/
def methodFullName (r : Request) : String :=
  r.method.getD ""

/-- `tryit.InvocationError`. -/
structure InvocationError where
  code : Int
  message : String
  details : List String
deriving Repr, DecidableEq

/-- `tryit.Response` (the `Latency` field, wall-clock time, is not
modelled). -/
structure Response where
  status : Int
  statusText : String
  headers : List (String × List String)
  jsonBody : String
  error : Option InvocationError
deriving Repr, DecidableEq

/-- `tryit.Transport`. -/
inductive Transport where
  | connect
  | grpc
  | grpcWeb
deriving Repr, DecidableEq

/-- `Transport.String`. -/
def transportString : Transport → String
  | .connect => "connect"
  | .grpc => "grpc"
  | .grpcWeb => "grpc-web"

/-- `tryit.ParseTransport`. -/
def parseTransport (s : String) : Except String Transport :=
  if s = "connect" ∨ s = "" then .ok .connect
  else if s = "grpc" then .ok .grpc
  else if s = "grpc-web" then .ok .grpcWeb
  else .error ("invalid transport: \"" ++ s ++ "\" (must be connect, grpc, or grpc-web)")

/-- `buildConnectURL`: strip one trailing slash from the base, ensure the
method path starts with a slash, concatenate. -/
def buildConnectURL (baseURL m : String) : String :=
  let b := if baseURL.endsWith "/" then baseURL.dropRight 1 else baseURL
  let mm := if m.startsWith "/" then m else "/" ++ m
  b ++ mm

/-- `buildGRPCWebURL` (same construction as `buildConnectURL`). -/
def buildGRPCWebURL (baseURL m : String) : String :=
  let b := if baseURL.endsWith "/" then baseURL.dropRight 1 else baseURL
  let mm := if m.startsWith "/" then m else "/" ++ m
  b ++ mm

/-! ## The Connect invoker (`internal/tryit/connect.go`)

Each call into an external library is an oracle field of `ConnectWorld`:
the pipeline is a pure function of the request and those outcomes.  A
hard error (`Except.error`) is the Go `return nil, err`; `Except.ok`
carries the `*Response`. -/

/-- HTTP response as seen by the Connect invoker; `readBody` is the
`io.ReadAll` outcome, with the body kept as the string the Go code
converts it to. -/
structure ConnectHTTPResult where
  statusCode : Int
  status : String
  headers : List (String × List String)
  readBody : Except String String
deriving Repr

/-- Outcomes of the external calls made by `ConnectInvoker.Invoke`, in
call order. -/
structure ConnectWorld where
  unmarshalReq : Option String
  marshalReq : Except String (List Nat)
  newRequest : Option String
  httpDo : Except String ConnectHTTPResult
  unmarshalResp : Option String
  marshalResp : Except String String
deriving Repr

/-- Tail of `ConnectInvoker.Invoke`: format the output message, falling
back to the raw body when formatting fails. -/
def connectFinish (w : ConnectWorld) (hr : ConnectHTTPResult) (body : String) :
    Except String Response :=
  let formatted := match w.marshalResp with
    | .ok j => j
    | .error _ => body
  .ok { status := hr.statusCode, statusText := hr.status, headers := hr.headers,
        jsonBody := formatted, error := none }

/-- `ConnectInvoker.Invoke` after the request JSON has been parsed. -/
def connectStep2 (w : ConnectWorld) : Except String Response :=
  match w.marshalReq with
  | .error e => .error ("failed to marshal request: " ++ e)
  | .ok _requestBytes =>
    match w.newRequest with
    | some e => .error ("failed to create HTTP request: " ++ e)
    | none =>
      match w.httpDo with
      | .error e =>
        .ok { status := 0, statusText := "Request Failed", headers := [], jsonBody := "",
              error := some ⟨0, "HTTP request failed: " ++ e, []⟩ }
      | .ok hr =>
        match hr.readBody with
        | .error e =>
          .ok { status := hr.statusCode, statusText := hr.status, headers := hr.headers,
                jsonBody := "",
                error := some ⟨hr.statusCode, "failed to read response body: " ++ e, []⟩ }
        | .ok body =>
          if hr.statusCode ≠ 200 then
            .ok { status := hr.statusCode, statusText := hr.status, headers := hr.headers,
                  jsonBody := body,
                  error := some ⟨hr.statusCode,
                    "RPC failed with status " ++ toString hr.statusCode, [body]⟩ }
          else if body ≠ "" then
            match w.unmarshalResp with
            | some e =>
              .ok { status := hr.statusCode, statusText := hr.status, headers := hr.headers,
                    jsonBody := body,
                    error := some ⟨hr.statusCode,
                      "failed to parse response JSON: " ++ e, [body]⟩ }
            | none => connectFinish w hr body
          else connectFinish w hr body

/-- `ConnectInvoker.Invoke`. -/
def connectInvoke (req : Request) (w : ConnectWorld) : Except String Response :=
  match requestValidate req with
  | some e => .error ("invalid request: " ++ e)
  | none =>
    if req.jsonBody ≠ "" then
      match w.unmarshalReq with
      | some e =>
        .ok { status := 400, statusText := "Bad Request", headers := [], jsonBody := "",
              error := some ⟨400, "failed to parse JSON request: " ++ e, []⟩ }
      | none => connectStep2 w
    else connectStep2 w

/-! ## The gRPC invoker (`GRPCInvoker.Invoke`) -/

/-- A Go computation that either panics or returns. -/
inductive PanicOr (α : Type) where
  | panicked (msg : String)
  | returned (v : α)
deriving Repr, DecidableEq

/-- Overall outcome of `GRPCInvoker.Invoke`: a runtime panic, a hard
error (`return nil, err`), or a `*Response`. -/
inductive GRPCOutcome where
  | panicked (msg : String)
  | hardError (msg : String)
  | response (r : Response)
deriving Repr, DecidableEq

/-- The `conn.Invoke` error as decomposed by `status.FromError`:
`isStatusErr` is the `ok` flag, `raw` the `%v` rendering of the raw
error. -/
structure GRPCStatusError where
  isStatusErr : Bool
  code : Int
  message : String
  details : List String
  raw : String
deriving Repr, DecidableEq

/-- Outcomes of the external calls made by `GRPCInvoker.Invoke`. -/
structure GRPCWorld where
  dial : Option String
  unmarshalReq : Option String
  invokeErr : Option GRPCStatusError
  respHeaders : List (String × List String)
  marshalResp : Except String String
deriving Repr

/-- The target-address computation of `GRPCInvoker.Invoke`.  The Go code
slices `target[:4]` and `target[:8]` unconditionally inside the `"http"`
branch, which panics on base URLs shorter than those bounds. -/
def grpcTarget (t : String) : PanicOr String :=
  if t.length < 4 then .panicked "slice bounds out of range"
  else if t.take 4 = "http" then
    if t.length < 8 then .panicked "slice bounds out of range"
    else if t.take 8 = "https://" then .returned (t.drop 8)
    else if t.take 7 = "http://" then .returned (t.drop 7)
    else .returned t
  else .returned t

/-- `GRPCInvoker.Invoke` after dial and request parsing succeeded. -/
def grpcAfterParse (w : GRPCWorld) : GRPCOutcome :=
  match w.invokeErr with
  | some e =>
    if ¬e.isStatusErr then
      .response { status := 2, statusText := "Unknown Error", headers := w.respHeaders,
                  jsonBody := "", error := some ⟨2, "RPC failed: " ++ e.raw, []⟩ }
    else
      .response { status := e.code, statusText := codeString e.code,
                  headers := w.respHeaders, jsonBody := "",
                  error := some ⟨e.code, e.message, e.details⟩ }
  | none =>
    let formatted := match w.marshalResp with
      | .ok j => j
      | .error em => "\x7b\"error\": \"failed to format response: " ++ em ++ "\"\x7d"
    .response { status := 0, statusText := "OK", headers := w.respHeaders,
                jsonBody := formatted, error := none }

/-- `GRPCInvoker.Invoke`. -/
def grpcInvoke (req : Request) (w : GRPCWorld) : GRPCOutcome :=
  match requestValidate req with
  | some e => .hardError ("invalid request: " ++ e)
  | none =>
    match grpcTarget req.baseURL with
    | .panicked m => .panicked m
    | .returned _target =>
      match w.dial with
      | some e =>
        .response { status := 14, statusText := "Connection Failed", headers := [],
                    jsonBody := "",
                    error := some ⟨14, "failed to connect to gRPC server: " ++ e, []⟩ }
      | none =>
        if req.jsonBody ≠ "" then
          match w.unmarshalReq with
          | some e =>
            .response { status := 3, statusText := "Invalid Argument", headers := [],
                        jsonBody := "",
                        error := some ⟨3, "failed to parse JSON request: " ++ e, []⟩ }
          | none => grpcAfterParse w
        else grpcAfterParse w

/-! ## The gRPC-Web invoker (`GRPCWebInvoker.Invoke`) -/

/-- HTTP response as seen by the gRPC-Web invoker; the body is a byte
list. -/
structure GRPCWebHTTPResult where
  statusCode : Int
  status : String
  headers : List (String × List String)
  readBody : Except String (List Nat)
deriving Repr

/-- Outcomes of the external calls made by `GRPCWebInvoker.Invoke`. -/
structure GRPCWebWorld where
  unmarshalReq : Option String
  marshalReq : Except String (List Nat)
  newRequest : Option String
  httpDo : Except String GRPCWebHTTPResult
  base64Decode : Except String (List Nat)
  unmarshalResp : Option String
  marshalResp : Except String String
deriving Repr

/-- Final status dispatch of `GRPCWebInvoker.Invoke`: a non-zero
`grpc-status` from the response headers becomes a populated
`Response.Error`, zero means success. -/
def grpcWebFinal (hr : GRPCWebHTTPResult) (grpcStatus : Int)
    (grpcMessage jsonBody : String) : Response :=
  if grpcStatus ≠ 0 then
    { status := grpcStatus, statusText := codeString grpcStatus, headers := hr.headers,
      jsonBody := jsonBody, error := some ⟨grpcStatus, grpcMessage, []⟩ }
  else
    { status := 0, statusText := "OK", headers := hr.headers, jsonBody := jsonBody,
      error := none }

/-- The base64-decoding step of `GRPCWebInvoker.Invoke`: when the
content type mentions a text format, or the first body byte is printable
ASCII, the body is fed to `base64.StdEncoding.DecodeString` (an oracle),
keeping the raw body if decoding fails. -/
def grpcWebDecodedBody (w : GRPCWebWorld) (hr : GRPCWebHTTPResult)
    (body : List Nat) : List Nat :=
  let contentType := headerGet hr.headers "Content-Type"
  let isTextFormat := strContains contentType "grpc-web-text" || strContains contentType "text"
  let looksLikeBase64 := match body with
    | b :: _ => decide (32 ≤ b ∧ b ≤ 126)
    | [] => false
  if isTextFormat || looksLikeBase64 then
    match w.base64Decode with
    | .ok decoded => decoded
    | .error _ => body
  else body

/-- Body processing of `GRPCWebInvoker.Invoke` after `io.ReadAll`:
optional base64 decoding (content-type sniffing plus a printable first
byte), header status extraction, frame parsing, message decoding. -/
def grpcWebProcessBody (w : GRPCWebWorld) (hr : GRPCWebHTTPResult)
    (body : List Nat) : Response :=
  let body2 := grpcWebDecodedBody w hr body
  let grpcStatus := extractGRPCStatus hr.headers
  let grpcMessage := headerGet hr.headers "grpc-message"
  if body2 ≠ [] then
    match parseGRPCWebFrame body2 with
    | .error e =>
      { status := 13, statusText := "Internal Error", headers := hr.headers,
        jsonBody := "", error := some ⟨13, "failed to parse gRPC-Web frame: " ++ e, []⟩ }
    | .ok messageData =>
      if messageData ≠ [] then
        match w.unmarshalResp with
        | some e =>
          { status := 13, statusText := "Internal Error", headers := hr.headers,
            jsonBody := "", error := some ⟨13, "failed to unmarshal response: " ++ e, []⟩ }
        | none =>
          let jsonBody := match w.marshalResp with
            | .ok j => j
            | .error _ => ""
          grpcWebFinal hr grpcStatus grpcMessage jsonBody
      else grpcWebFinal hr grpcStatus grpcMessage ""
  else grpcWebFinal hr grpcStatus grpcMessage ""

/-- `GRPCWebInvoker.Invoke` after the request JSON has been parsed. -/
def grpcWebStep2 (w : GRPCWebWorld) : Except String Response :=
  match w.marshalReq with
  | .error e => .error ("failed to marshal request: " ++ e)
  | .ok requestBytes =>
    let _frame := encodeGRPCWebFrame requestBytes
    match w.newRequest with
    | some e => .error ("failed to create HTTP request: " ++ e)
    | none =>
      match w.httpDo with
      | .error e =>
        .ok { status := 14, statusText := "Request Failed", headers := [], jsonBody := "",
              error := some ⟨14, "HTTP request failed: " ++ e, []⟩ }
      | .ok hr =>
        match hr.readBody with
        | .error e =>
          .ok { status := hr.statusCode, statusText := hr.status, headers := hr.headers,
                jsonBody := "",
                error := some ⟨hr.statusCode, "failed to read response body: " ++ e, []⟩ }
        | .ok body => .ok (grpcWebProcessBody w hr body)

/-- `GRPCWebInvoker.Invoke`. -/
def grpcWebInvoke (req : Request) (w : GRPCWebWorld) : Except String Response :=
  match requestValidate req with
  | some e => .error ("invalid request: " ++ e)
  | none =>
    if req.jsonBody ≠ "" then
      match w.unmarshalReq with
      | some e =>
        .ok { status := 3, statusText := "Invalid Argument", headers := [], jsonBody := "",
              error := some ⟨3, "failed to parse JSON request: " ++ e, []⟩ }
      | none => grpcWebStep2 w
    else grpcWebStep2 w

/-! ## Header security helpers (`internal/tryit/security.go`) -/

/-- `tryit.SensitiveHeaders`. -/
def sensitiveHeaders : List String :=
  ["authorization", "cookie", "set-cookie", "proxy-authorization",
   "www-authenticate", "x-api-key", "api-key"]

/-- `tryit.FilterHeaders`: an empty allowlist permits everything (the
same map is returned); otherwise a header is kept exactly when its name
matches an allowlist entry case-insensitively, the original pair being
copied unchanged. -/
def filterHeaders (headers : List (String × String)) (allowlist : List String) :
    List (String × String) :=
  if allowlist = [] then headers
  else
    let allowedLower := allowlist.map strToLower
    headers.filter (fun kv => allowedLower.contains (strToLower kv.1))

/-- `tryit.RedactSensitiveHeaders`: sensitive names (case-insensitive)
have their values replaced by `["[REDACTED]"]`. -/
def redactSensitiveHeaders (headers : List (String × List String)) :
    List (String × List String) :=
  headers.map (fun kv =>
    if (sensitiveHeaders.map strToLower).contains (strToLower kv.1) then
      (kv.1, ["[REDACTED]"])
    else kv)

/-- `tryit.MergeHeaders`: override wins on (case-sensitive) key
collisions, as for Go map assignment. -/
def mergeHeaders (base override : List (String × String)) : List (String × String) :=
  base.filter (fun kv => ¬ override.any (fun ov => ov.1 = kv.1)) ++ override

/-- `len` of a Go string: the number of UTF-8 bytes. -/
def goStringLen (s : String) : Nat :=
  (s.data.map Char.utf8Size).sum

/-- `tryit.ValidateJSONSize` (`len` of a Go string counts bytes). -/
def validateJSONSize (jsonBody : String) (maxBytes : Int) : Option String :=
  let size : Int := goStringLen jsonBody
  if maxBytes > 0 ∧ size > maxBytes then
    some ("request body size " ++ toString size ++ " bytes exceeds limit of " ++
      toString maxBytes ++ " bytes")
  else none

/-! ## Configuration (`internal/config/config.go`) -/

/-- `config.TLSConfig`. -/
structure TLSConfig where
  insecureSkipVerify : Bool
deriving Repr, DecidableEq

/-- `config.Environment`. -/
structure Environment where
  name : String
  baseURL : String
  transport : String
  tls : TLSConfig
  defaultHeaders : List (String × String)
deriving Repr, DecidableEq

/-- `config.Config`. -/
structure Config where
  environments : List Environment
  headerAllowlist : List String
  maxRequestBodyBytes : Int
  requestTimeoutSeconds : Int
deriving Repr, DecidableEq

/-- The two fields of a parsed `net/url.URL` that validation reads. -/
structure GoURL where
  scheme : String
  host : String
deriving Repr, DecidableEq

/-- The scheme scanner of `net/url.Parse` (`getScheme`): `orig` is the
whole input, `acc` the (reversed) scheme characters read so far.  A
leading letter starts a scheme; digits and `+`/`-`/`.` may continue one
but not start one; `:` ends it (an error when it comes first); any other
character means the URL has no scheme. -/
def getSchemeAux (orig : List Char) : List Char → List Char →
    Except String (List Char × List Char)
  | acc, c :: rest =>
    if c.isAlpha then getSchemeAux orig (c :: acc) rest
    else if c.isDigit ∨ c = '+' ∨ c = '-' ∨ c = '.' then
      if acc = [] then .ok ([], orig) else getSchemeAux orig (c :: acc) rest
    else if c = ':' then
      if acc = [] then .error "missing protocol scheme" else .ok (acc.reverse, rest)
    else .ok ([], orig)
  | _, [] => .ok ([], orig)

/-- `net/url.Parse`, restricted to the `Scheme`/`Host` fields that
`Environment.Validate` reads: scheme splitting per `getScheme` (the
scheme is lowercased), and for a `//` authority the host is the
authority up to `/`, `?` or `#` with any userinfo (up to the last `@`)
stripped.  Host-character validation and percent-decoding of `net/url`
are not modelled; the URLs validation cares about are plain. -/
def urlParse (s : String) : Except String GoURL :=
  match getSchemeAux s.toList [] s.toList with
  | .error e => .error e
  | .ok (schemeChars, rest) =>
    let scheme := strToLower (String.mk schemeChars)
    match rest with
    | '/' :: '/' :: r =>
      let authority := r.takeWhile (fun c => ¬(c = '/' ∨ c = '?' ∨ c = '#'))
      let host :=
        if authority.contains '@' then
          (authority.reverse.takeWhile (fun c => c ≠ '@')).reverse
        else authority
      .ok { scheme := scheme, host := String.mk host }
    | _ => .ok { scheme := scheme, host := "" }

/-- `config.DefaultTransport`. -/
def defaultTransport : String := "connect"

/-- `Environment.Validate`: requires a name, a base URL that parses with
a scheme and a host, and a transport among the three literals; an empty
transport is defaulted to `"connect"` (the Go method mutates the
receiver, modelled by returning the updated environment). -/
def environmentValidate (e : Environment) : Except String Environment :=
  if e.name = "" then .error "environment name is required"
  else if e.baseURL = "" then .error "baseURL is required"
  else
    match urlParse e.baseURL with
    | .error err => .error ("invalid baseURL: " ++ err)
    | .ok u =>
      if u.scheme = "" then .error "baseURL must include a scheme (http:// or https://)"
      else if u.host = "" then .error "baseURL must include a host"
      else if e.transport ≠ "" then
        if e.transport = "connect" ∨ e.transport = "grpc" ∨ e.transport = "grpc-web" then
          .ok e
        else
          .error ("invalid transport \"" ++ e.transport ++
            "\", must be one of: connect, grpc, grpc-web")
      else .ok { e with transport := defaultTransport }

/-- The environment loop of `Config.Validate`: duplicate names are
rejected before the per-environment validation runs. -/
def configValidateAux (seen : List String) : List Environment →
    Except String (List Environment)
  | [] => .ok []
  | env :: rest =>
    if seen.contains env.name then
      .error ("duplicate environment name: \"" ++ env.name ++ "\"")
    else
      match environmentValidate env with
      | .error e => .error ("environment \"" ++ env.name ++ "\": " ++ e)
      | .ok env2 =>
        match configValidateAux (env.name :: seen) rest with
        | .error e => .error e
        | .ok envs => .ok (env2 :: envs)

/-- `Config.Validate`: the environment loop, then the non-negativity
checks on the two limits. -/
def configValidate (c : Config) : Except String Config :=
  match configValidateAux [] c.environments with
  | .error e => .error e
  | .ok envs =>
    if c.maxRequestBodyBytes < 0 then
      .error ("maxRequestBodyBytes must be non-negative, got " ++
        toString c.maxRequestBodyBytes)
    else if c.requestTimeoutSeconds < 0 then
      .error ("requestTimeoutSeconds must be non-negative, got " ++
        toString c.requestTimeoutSeconds)
    else .ok { c with environments := envs }

/-- `Config.GetEnvironment`. -/
def getEnvironment (c : Config) (name : String) : Except String Environment :=
  match c.environments.find? (fun e => e.name = name) with
  | some e => .ok e
  | none => .error ("environment \"" ++ name ++ "\" not found")

/-- `Config.GetTimeout` in nanoseconds (`time.Duration` units). -/
def getTimeout (c : Config) : Int :=
  c.requestTimeoutSeconds * 1000000000

/-! ## The `/api/tryit/invoke` handler (`internal/server/handlers_tryit.go`) -/

/-- `server.TryItError`. -/
structure TryItError where
  code : Int
  message : String
  details : List String
deriving Repr, DecidableEq

/-- `server.TryItResponse` (`LatencyMs`, wall-clock time, is not
modelled). -/
structure TryItResponseModel where
  success : Bool
  status : Int
  statusText : String
  headers : List (String × List String)
  body : String
  error : Option TryItError
deriving Repr, DecidableEq

/-- The form values the handler extracts from the request. -/
structure TryItForm where
  environment : String
  method : String
  transport : String
  body : String
  headersJSON : String
deriving Repr, DecidableEq

/-- Outcomes of the handler's external calls: form parsing, headers-JSON
decoding, registry lookup, invocation (one oracle per transport,
standing for the chosen invoker's `Invoke`), template rendering. -/
structure HandlerWorld where
  parseForm : Option String
  headersParse : Except String (List (String × String))
  registryPresent : Bool
  methodFound : Bool
  invoke : Transport → Request → Except String Response
  templateRender : Option String

/-- What the handler writes back. -/
inductive HandlerOutcome where
  | jsonError (code : Int) (message : String)
  | rendered (resp : TryItResponseModel)
  | templateError (message : String)
deriving Repr, DecidableEq

/-- The `TryItResponse` the handler builds from an invoker response. -/
def mkTryItResponse (resp : Response) : TryItResponseModel :=
  { success := resp.error = none, status := resp.status, statusText := resp.statusText,
    headers := redactSensitiveHeaders resp.headers, body := resp.jsonBody,
    error := resp.error.map (fun ie => ⟨ie.code, ie.message, ie.details⟩) }

/-- `Server.handleTryItInvoke`: the request pipeline from form parsing
through transport dispatch, invocation and rendering.  `cfg` is
`s.config` (`none` when no `reflect.yaml` was loaded). -/
def handleTryItInvoke (cfg : Option Config) (form : TryItForm) (w : HandlerWorld) :
    HandlerOutcome :=
  match cfg with
  | none => .jsonError 503 "Try It functionality is not configured (missing reflect.yaml)"
  | some config =>
    match w.parseForm with
    | some e => .jsonError 400 ("failed to parse form data: " ++ e)
    | none =>
      let headersStep : Except String (List (String × String)) :=
        if form.headersJSON ≠ "" ∧ form.headersJSON ≠ "{}" then w.headersParse
        else .ok []
      match headersStep with
      | .error e => .jsonError 400 ("failed to parse headers JSON: " ++ e)
      | .ok reqHeaders =>
        match validateJSONSize form.body config.maxRequestBodyBytes with
        | some e => .jsonError 413 e
        | none =>
          if ¬ w.registryPresent then .jsonError 503 "No protobuf descriptors loaded"
          else if ¬ w.methodFound then
            .jsonError 404 ("method \"" ++ form.method ++ "\" not found")
          else
            match getEnvironment config form.environment with
            | .error _ =>
              .jsonError 400 ("environment \"" ++ form.environment ++ "\" not found")
            | .ok env =>
              let transport := if form.transport = "" then env.transport else form.transport
              match parseTransport transport with
              | .error e => .jsonError 400 e
              | .ok parsedTransport =>
                let filteredHeaders := filterHeaders reqHeaders config.headerAllowlist
                let mergedHeaders := mergeHeaders env.defaultHeaders filteredHeaders
                let invokerReq : Request :=
                  { environment := form.environment, method := some form.method,
                    jsonBody := form.body, headers := mergedHeaders,
                    baseURL := env.baseURL, timeout := getTimeout config,
                    insecureSkipVerify := env.tls.insecureSkipVerify }
                match parsedTransport with
                | .grpcWeb => .jsonError 501 "gRPC-Web transport is not yet implemented"
                | t =>
                  match w.invoke t invokerReq with
                  | .error e => .jsonError 500 ("invocation failed: " ++ e)
                  | .ok resp =>
                    match w.templateRender with
                    | some e => .templateError ("Template error: " ++ e)
                    | none => .rendered (mkTryItResponse resp)

/-! ## Example JSON generation (`internal/descriptor/examplejson.go`)

The generator walks protobuf message descriptors, which may be cyclic, so
descriptors are embedded as an environment mapping message full names to
field lists, message-typed fields referring to their message by name.
`map[string]any` values become `JValue` (floats keep their source
literal; `json.MarshalIndent` rendering is not modelled, the claims are
about the produced value).  In Go the recursion is bounded because every
nested `generateMessageValue` call increments `depth` and the guard
`depth >= options.MaxDepth` stops it; the Lean fuel argument is exactly
`MaxDepth - depth` (clamped at zero), so the fuel pattern match is the
Go depth guard.  The per-call helpers receive the recursion for nested
messages (at the decremented fuel and with the current message pushed on
`visited`) as the `recurse` argument, standing for Go's
`(options, visited, depth+1)` triple. -/

/-- The `any` values the generator produces. -/
inductive JValue where
  | null
  | bool (b : Bool)
  | int (n : Int)
  | float (lit : String)
  | str (s : String)
  | arr (elems : List JValue)
  | obj (fields : List (String × JValue))
deriving Repr

/-- The fragment of `protoreflect.Kind` the generator switches on
(`GroupKind` and any other kind hit the `unsupported field kind`
default). -/
inductive FieldKind where
  | boolK
  | int32K
  | int64K
  | uint32K
  | uint64K
  | floatK
  | doubleK
  | stringK
  | bytesK
  | enumK (values : List (String × Int))
  | messageK (msgName : String)
  | groupK
deriving Repr

/-- A field descriptor: name, JSON name, kind, whether its cardinality is
`Repeated` / `Required`, whether it has the `optional` keyword, the map
entry key/value fields when `IsMap()`, and the member list of its
containing oneof when `ContainingOneof() != nil`. -/
inductive FieldDescr where
  | mk (name jsonName : String) (kind : FieldKind)
      (repeatedCard requiredCard hasOptKeyword : Bool)
      (mapEntry : Option (FieldDescr × FieldDescr))
      (oneofFields : Option (List FieldDescr))
deriving Repr

/-- Field name accessor. -/
def FieldDescr.name : FieldDescr → String
  | .mk n _ _ _ _ _ _ _ => n

/-- JSON name accessor. -/
def FieldDescr.jsonName : FieldDescr → String
  | .mk _ j _ _ _ _ _ _ => j

/-- Kind accessor. -/
def FieldDescr.kind : FieldDescr → FieldKind
  | .mk _ _ k _ _ _ _ _ => k

/-- `Cardinality() == Repeated`. -/
def FieldDescr.repeatedCard : FieldDescr → Bool
  | .mk _ _ _ r _ _ _ _ => r

/-- `Cardinality() == Required`. -/
def FieldDescr.requiredCard : FieldDescr → Bool
  | .mk _ _ _ _ r _ _ _ => r

/-- `HasOptionalKeyword()`. -/
def FieldDescr.hasOptKeyword : FieldDescr → Bool
  | .mk _ _ _ _ _ o _ _ => o

/-- `IsMap()` with `MapKey()`/`MapValue()`. -/
def FieldDescr.mapEntry : FieldDescr → Option (FieldDescr × FieldDescr)
  | .mk _ _ _ _ _ _ m _ => m

/-- `ContainingOneof()?.Fields()`. -/
def FieldDescr.oneofFields : FieldDescr → Option (List FieldDescr)
  | .mk _ _ _ _ _ _ _ o => o

/-- `descriptor.ExampleOptions`. -/
structure ExampleOptions where
  includeOptional : Bool
  includeComments : Bool
  maxDepth : Int
  minimalMode : Bool
deriving Repr, DecidableEq

/-- `descriptor.DefaultExampleOptions`. -/
def defaultExampleOptions : ExampleOptions :=
  { includeOptional := true, includeComments := false, maxDepth := 5,
    minimalMode := false }

/-- `shouldIncludeField`. -/
def shouldIncludeField (field : FieldDescr) (options : ExampleOptions) : Bool :=
  if options.minimalMode then field.requiredCard
  else if ¬options.includeOptional ∧ field.hasOptKeyword then false
  else true

/-- `generateEnumValue`: the first value with a non-zero number, else the
first value, else `UNKNOWN`. -/
def generateEnumValue (values : List (String × Int)) : JValue :=
  match values.find? (fun v => decide (v.2 ≠ 0)) with
  | some v => .str v.1
  | none =>
    match values with
    | v :: _ => .str v.1
    | [] => .str "UNKNOWN"

/-- `generateWellKnownType`, keyed on the message full name.  `none` is
the Go `return nil` (including for `google.protobuf.NullValue`, whose nil
map falls through to regular field generation in the caller). -/
def generateWellKnownType (msgName : String) : Option JValue :=
  match msgName with
  | "google.protobuf.Timestamp" =>
    some (.obj [("seconds", .int 1640995200), ("nanos", .int 0)])
  | "google.protobuf.Duration" =>
    some (.obj [("seconds", .int 300), ("nanos", .int 0)])
  | "google.protobuf.Any" =>
    some (.obj [("@type", .str "type.googleapis.com/google.protobuf.StringValue"),
      ("value", .str "example value")])
  | "google.protobuf.Struct" =>
    some (.obj [("fields", .obj [("example_key",
      .obj [("string_value", .str "example value")])])])
  | "google.protobuf.FieldMask" =>
    some (.obj [("paths", .arr [.str "field1", .str "field2.nested"])])
  | "google.protobuf.StringValue" =>
    some (.obj [("value", .str "example string")])
  | "google.protobuf.Int32Value" =>
    some (.obj [("value", .int 42)])
  | "google.protobuf.Int64Value" =>
    some (.obj [("value", .int 42)])
  | "google.protobuf.UInt32Value" =>
    some (.obj [("value", .int 42)])
  | "google.protobuf.UInt64Value" =>
    some (.obj [("value", .int 42)])
  | "google.protobuf.FloatValue" =>
    some (.obj [("value", .float "3.14")])
  | "google.protobuf.DoubleValue" =>
    some (.obj [("value", .float "3.14")])
  | "google.protobuf.BoolValue" =>
    some (.obj [("value", .bool true)])
  | "google.protobuf.BytesValue" =>
    some (.obj [("value", .str "ZXhhbXBsZSBkYXRh")])
  | "google.protobuf.Empty" =>
    some (.obj [])
  | _ => none

/-- `fmt.Sprintf "%v"` on the scalar values used as map keys (composite
values cannot be protobuf map keys). -/
def jvToGoString : JValue → String
  | .str s => s
  | .int n => toString n
  | .bool b => if b then "true" else "false"
  | .float lit => lit
  | .null => "<nil>"
  | .arr _ => ""
  | .obj _ => ""

/-- `generateScalarValue`, with `recurse` standing for the nested call
`generateMessageValue (field.Message(), options, visited, depth+1)`.
The scalar literals are exactly the Go ones (`42`, `3.14`,
`example_<name>`, and the base64 of `example data`). -/
def genScalarWith (recurse : String → Except String JValue) (field : FieldDescr) :
    Except String JValue :=
  match field.kind with
  | .boolK => .ok (.bool true)
  | .int32K => .ok (.int 42)
  | .int64K => .ok (.int 42)
  | .uint32K => .ok (.int 42)
  | .uint64K => .ok (.int 42)
  | .floatK => .ok (.float "3.14")
  | .doubleK => .ok (.float "3.14")
  | .stringK => .ok (.str ("example_" ++ field.name))
  | .bytesK => .ok (.str "ZXhhbXBsZSBkYXRh")
  | .enumK values => .ok (generateEnumValue values)
  | .messageK msgName => recurse msgName
  | .groupK => .error "unsupported field kind: group"

/-- `generateRepeatedValue`: one item for message fields, two otherwise
(the two iterations of the Go loop unrolled). -/
def genRepeatedWith (recurse : String → Except String JValue) (field : FieldDescr) :
    Except String JValue :=
  match field.kind with
  | .messageK _ =>
    match genScalarWith recurse field with
    | .error e => .error e
    | .ok v => .ok (.arr [v])
  | _ =>
    match genScalarWith recurse field with
    | .error e => .error e
    | .ok v1 =>
      match genScalarWith recurse field with
      | .error e => .error e
      | .ok v2 => .ok (.arr [v1, v2])

/-- `generateMapValue`: two key/value pairs, the second key suffixed
`_1` (the two iterations of the Go loop unrolled). -/
def genMapWith (recurse : String → Except String JValue)
    (keyField valueField : FieldDescr) : Except String JValue :=
  match genScalarWith recurse keyField with
  | .error e => .error e
  | .ok k0 =>
    match genScalarWith recurse valueField with
    | .error e => .error e
    | .ok v0 =>
      match genScalarWith recurse keyField with
      | .error e => .error e
      | .ok k1 =>
        match genScalarWith recurse valueField with
        | .error e => .error e
        | .ok v1 =>
          .ok (.obj [(jvToGoString k0, v0), (jvToGoString k1 ++ "_1", v1)])

/-- `generateOneofValue`: the value of the FIRST member of the oneof
(`oneof.Fields().Get(0)`), `none` (Go `nil, nil`, skipped by the caller)
for an empty oneof. -/
def genOneofWith (recurse : String → Except String JValue)
    (ofs : List FieldDescr) : Except String (Option JValue) :=
  match ofs with
  | [] => .ok none
  | firstField :: _ =>
    match genScalarWith recurse firstField with
    | .error e => .error e
    | .ok v => .ok (some v)

/-- `generateFieldValue`: map, then repeated, then oneof, then scalar —
the order of the Go switch. -/
def genFieldWith (recurse : String → Except String JValue) (field : FieldDescr) :
    Except String (Option JValue) :=
  match field.mapEntry with
  | some (kf, vf) =>
    match genMapWith recurse kf vf with
    | .error e => .error e
    | .ok v => .ok (some v)
  | none =>
    if field.repeatedCard then
      match genRepeatedWith recurse field with
      | .error e => .error e
      | .ok v => .ok (some v)
    else
      match field.oneofFields with
      | some ofs => genOneofWith recurse ofs
      | none =>
        match genScalarWith recurse field with
        | .error e => .error e
        | .ok v => .ok (some v)

/-- The field loop of `generateMessageValue`: skipped fields (options)
and `nil` values (empty oneofs) contribute nothing; a field error is
wrapped and aborts; otherwise the value is stored under the field's JSON
name. -/
def genFieldsWith (recurse : String → Except String JValue)
    (options : ExampleOptions) : List FieldDescr →
    Except String (List (String × JValue))
  | [] => .ok []
  | field :: rest =>
    if shouldIncludeField field options then
      match genFieldWith recurse field with
      | .error e =>
        .error ("failed to generate value for field " ++ field.name ++ ": " ++ e)
      | .ok none => genFieldsWith recurse options rest
      | .ok (some v) =>
        match genFieldsWith recurse options rest with
        | .error e => .error e
        | .ok kvs => .ok ((field.jsonName, v) :: kvs)
    else genFieldsWith recurse options rest

/-- `generateMessageValue`.  Fuel `0` is the Go guard
`depth >= options.MaxDepth`; then the visited check (full names on the
current recursion stack), the well-known-type shortcut, and the field
loop with the message pushed for the nested calls at decremented
fuel. -/
def genMessageValue (env : String → List FieldDescr) (options : ExampleOptions) :
    Nat → List String → String → Except String JValue
  | 0, _, _ => .ok (.obj [("<max_depth_reached>", .bool true)])
  | f + 1, visited, msgName =>
    if msgName ∈ visited then .ok (.obj [("<recursive>", .bool true)])
    else
      match generateWellKnownType msgName with
      | some v => .ok v
      | none =>
        match genFieldsWith (genMessageValue env options f (msgName :: visited))
            options (env msgName) with
        | .error e => .error e
        | .ok kvs => .ok (.obj kvs)

/-- `GenerateExampleJSON` up to (but not including) `json.MarshalIndent`:
defaulting of `MaxDepth` and the top-level call with an empty visited
set; the initial fuel is `MaxDepth - 0` clamped to zero. -/
def generateExampleValue (env : String → List FieldDescr)
    (options : ExampleOptions) (msgName : String) : Except String JValue :=
  let options2 := if options.maxDepth = 0 then { options with maxDepth := 5 } else options
  genMessageValue env options2 options2.maxDepth.toNat [] msgName

/-- Whether a generated object has a key. -/
def hasKey : JValue → String → Bool
  | .obj kvs, k => kvs.any (fun kv => kv.1 = k)
  | _, _ => false

mutual
/-- Nesting depth of a generated value (objects and arrays add a
level). -/
def jdepth : JValue → Nat
  | .obj kvs => 1 + jdepthFields kvs
  | .arr es => 1 + jdepthList es
  | _ => 0

/-- Depth of an object's field list. -/
def jdepthFields : List (String × JValue) → Nat
  | [] => 0
  | kv :: rest => max (jdepth kv.2) (jdepthFields rest)

/-- Depth of an array's element list. -/
def jdepthList : List JValue → Nat
  | [] => 0
  | v :: rest => max (jdepth v) (jdepthList rest)
end

/-! ## Concrete scenarios used by the theorems -/

/-- A request that passes `Request.Validate`. -/
def sampleRequest : Request :=
  { environment := "dev", method := some "echo.v1.EchoService/Echo", jsonBody := "",
    headers := [], baseURL := "https://example.com", timeout := 1,
    insecureSkipVerify := false }

/-- A response body holding a data frame with payload `[10]` followed by a
trailer frame (flag `0x80`) whose text reads `grpc-status: 5`. -/
def trailerStatusBody : List Nat :=
  [0, 0, 0, 0, 1, 10] ++ [128, 0, 0, 0, 14] ++
  [103, 114, 112, 99, 45, 115, 116, 97, 116, 117, 115, 58, 32, 53]

/-- An HTTP 200 exchange whose body is `trailerStatusBody` and whose
headers carry no `grpc-status`. -/
def trailerStatusHTTP : GRPCWebHTTPResult :=
  { statusCode := 200, status := "200 OK",
    headers := [("Content-Type", ["application/grpc-web+proto"])],
    readBody := .ok trailerStatusBody }

/-- Oracle outcomes for the trailer-status scenario: every external call
succeeds. -/
def trailerStatusWorld : GRPCWebWorld :=
  { unmarshalReq := none, marshalReq := .ok [10], newRequest := none,
    httpDo := .ok trailerStatusHTTP, base64Decode := .error "unused",
    unmarshalResp := none, marshalResp := .ok "{}" }

/-- An HTTP 200 exchange carrying `grpc-status: 5` and `grpc-message:
boom` in the response headers, with a data frame of payload `[10]`. -/
def headerStatusHTTP : GRPCWebHTTPResult :=
  { statusCode := 200, status := "200 OK",
    headers := [("grpc-status", ["5"]), ("grpc-message", ["boom"])],
    readBody := .ok [0, 0, 0, 0, 1, 10] }

/-- Oracle outcomes for the header-status scenario. -/
def headerStatusWorld : GRPCWebWorld :=
  { unmarshalReq := none, marshalReq := .ok [10], newRequest := none,
    httpDo := .ok headerStatusHTTP, base64Decode := .error "unused",
    unmarshalResp := none, marshalResp := .ok "{}" }

/-- Whether a `GRPCOutcome` is the hard-error (`return nil, err`) case. -/
def grpcIsHardError : GRPCOutcome → Bool
  | .hardError _ => true
  | _ => false

/-- A request that passes `Request.Validate` but whose base URL cannot be
turned into an `http.Request` (the space is rejected by `net/url`). -/
def badURLRequest : Request :=
  { environment := "dev", method := some "echo.v1.EchoService/Echo", jsonBody := "",
    headers := [], baseURL := "http://bad url", timeout := 1,
    insecureSkipVerify := false }

/-- Oracle outcomes where `http.NewRequestWithContext` fails. -/
def newRequestFailWorld : ConnectWorld :=
  { unmarshalReq := none, marshalReq := .ok [10],
    newRequest := some "net/url: invalid control character in URL",
    httpDo := .error "unused", unmarshalResp := none, marshalResp := .error "unused" }

/-- A valid request carrying a JSON body. -/
def jsonBodyRequest : Request :=
  { environment := "dev", method := some "echo.v1.EchoService/Echo",
    jsonBody := "\x7b\"msg\": 1\x7d", headers := [], baseURL := "https://example.com",
    timeout := 1, insecureSkipVerify := false }

/-- Oracle outcomes where `protojson.Unmarshal` of the request body
fails. -/
def parseFailConnectWorld : ConnectWorld :=
  { unmarshalReq := some "proto: syntax error", marshalReq := .ok [10],
    newRequest := none, httpDo := .error "unused", unmarshalResp := none,
    marshalResp := .error "unused" }

/-- Oracle outcomes where `grpc.Dial` fails. -/
def dialFailWorld : GRPCWorld :=
  { dial := some "passthrough resolver: missing address", unmarshalReq := none,
    invokeErr := none, respHeaders := [], marshalResp := .ok "{}" }

/-- The invoker request the handler builds once environment and headers
are resolved. -/
def handlerRequest (config : Config) (form : TryItForm) (env : Environment)
    (reqHeaders : List (String × String)) : Request :=
  { environment := form.environment, method := some form.method,
    jsonBody := form.body,
    headers := mergeHeaders env.defaultHeaders (filterHeaders reqHeaders config.headerAllowlist),
    baseURL := env.baseURL, timeout := getTimeout config,
    insecureSkipVerify := env.tls.insecureSkipVerify }

/-- An environment whose default transport is `grpc-web`. -/
def devWebEnv : Environment :=
  { name := "dev", baseURL := "https://example.com", transport := "grpc-web",
    tls := { insecureSkipVerify := false }, defaultHeaders := [] }

/-- A configuration holding only `devWebEnv`. -/
def webEnvConfig : Config :=
  { environments := [devWebEnv], headerAllowlist := [],
    maxRequestBodyBytes := 1048576, requestTimeoutSeconds := 15 }

/-- A form that invokes `echo.v1.EchoService/Echo` against `dev` with the
environment's default transport. -/
def webForm : TryItForm :=
  { environment := "dev", method := "echo.v1.EchoService/Echo", transport := "",
    body := "", headersJSON := "" }

/-- A successful invoker response. -/
def okResponse : Response :=
  { status := 0, statusText := "OK", headers := [], jsonBody := "{}", error := none }

/-- A handler world where every external call succeeds and every invoker
would answer `okResponse`. -/
def okHandlerWorld : HandlerWorld :=
  { parseForm := none, headersParse := .error "unused", registryPresent := true,
    methodFound := true, invoke := fun _ _ => .ok okResponse, templateRender := none }

/-- The acceptance predicate of `Environment.Validate`, spelled from the
claim: a name, a base URL parsing with scheme and host, and a transport
that is empty or one of the three literals. -/
def envOK (e : Environment) : Bool :=
  decide (e.name ≠ "") && decide (e.baseURL ≠ "") &&
  (match urlParse e.baseURL with
   | .ok u => decide (u.scheme ≠ "") && decide (u.host ≠ "")
   | .error _ => false) &&
  decide (e.transport = "" ∨ e.transport = "connect" ∨ e.transport = "grpc" ∨
    e.transport = "grpc-web")

/-- First of two environments sharing the name `dev`. -/
def devEnv1 : Environment :=
  { name := "dev", baseURL := "https://dev1.example.com", transport := "connect",
    tls := { insecureSkipVerify := false }, defaultHeaders := [] }

/-- Second environment also named `dev`. -/
def devEnv2 : Environment :=
  { name := "dev", baseURL := "https://dev2.example.com", transport := "connect",
    tls := { insecureSkipVerify := false }, defaultHeaders := [] }

/-- A configuration with two environments both named `dev`. -/
def dupDevConfig : Config :=
  { environments := [devEnv1, devEnv2], headerAllowlist := [],
    maxRequestBodyBytes := 0, requestTimeoutSeconds := 0 }

/-- An environment whose base URL `https://` has a scheme but no host. -/
def httpsNoHostEnv : Environment :=
  { name := "dev", baseURL := "https://", transport := "",
    tls := { insecureSkipVerify := false }, defaultHeaders := [] }

/-- A valid environment that leaves the transport empty. -/
def validConnectEnvNoTransport : Environment :=
  { name := "dev", baseURL := "https://dev.example.com", transport := "",
    tls := { insecureSkipVerify := false }, defaultHeaders := [] }

/-- A plain string field named `a` (as a oneof member descriptor). -/
def oneofA : FieldDescr := .mk "a" "a" .stringK false false false none none

/-- A plain int32 field named `b` (as a oneof member descriptor). -/
def oneofB : FieldDescr := .mk "b" "b" .int32K false false false none none

/-- Field `a` of `test.OneofMsg`, member of the oneof `[a, b]`. -/
def fieldA : FieldDescr := .mk "a" "a" .stringK false false false none (some [oneofA, oneofB])

/-- Field `b` of `test.OneofMsg`, member of the oneof `[a, b]`. -/
def fieldB : FieldDescr := .mk "b" "b" .int32K false false false none (some [oneofA, oneofB])

/-- An environment with one message `test.OneofMsg` holding the two-member
oneof `[a, b]`. -/
def oneofEnv : String → List FieldDescr :=
  fun n => if n = "test.OneofMsg" then [fieldA, fieldB] else []

/-- The self-referential field of `test.Node`. -/
def nodeField : FieldDescr := .mk "child" "child" (.messageK "test.Node") false false false none none

/-- A cyclic environment: `test.Node` has one field of type `test.Node`. -/
def cyclicEnv : String → List FieldDescr :=
  fun n => if n = "test.Node" then [nodeField] else []

/-- Left self-referential branch of `test.Tree`. -/
def leftField : FieldDescr := .mk "left" "left" (.messageK "test.Tree") false false false none none

/-- Right self-referential branch of `test.Tree`. -/
def rightField : FieldDescr := .mk "right" "right" (.messageK "test.Tree") false false false none none

/-- A cyclic environment with two cycle entry points per node. -/
def treeEnv : String → List FieldDescr :=
  fun n => if n = "test.Tree" then [leftField, rightField] else []

/-- A recursion oracle that is never consulted. -/
def unusedRecurse : String → Except String JValue := fun _ => .error "unused"

/-! ## Theorems -/

/-- Reassembling the four big-endian bytes of a 32-bit value gives the
value back. -/
lemma bigEndian4_encode (n : Nat) (h : n < 4294967296) :
    bigEndian4 (n % 4294967296 / 16777216) (n % 4294967296 / 65536 % 256)
      (n % 4294967296 / 256 % 256) (n % 4294967296 % 256) = n := by
  simp only [bigEndian4]
  omega

/-- On an all-zero buffer every iteration of the frame loop reads an empty
data frame, so the loop consumes five bytes at a time and ends with an
empty message (silently dropping a final fragment shorter than a header). -/
lemma grpcWebFrameLoop_replicate_zero (n : Nat) :
    ∀ gas totalLen consumed acc, n ≤ gas →
      grpcWebFrameLoop gas totalLen consumed (List.replicate n 0) acc =
        .ok (if 5 ≤ n then [] else acc) := by
  induction n using Nat.strong_induction_on with
  | _ n ih =>
    intro gas totalLen consumed acc hgas
    rcases Nat.lt_or_ge n 5 with h | h
    · interval_cases n <;> simp [grpcWebFrameLoop]
    · obtain ⟨m, rfl⟩ : ∃ m, n = m + 5 := ⟨n - 5, by omega⟩
      obtain ⟨g, rfl⟩ : ∃ g, gas = g + 1 := ⟨gas - 1, by omega⟩
      have hrep : List.replicate (m + 5) (0 : Nat) =
          0 :: 0 :: 0 :: 0 :: 0 :: List.replicate m 0 := by
        rw [Nat.add_comm, List.replicate_add]
        rfl
      rw [hrep, grpcWebFrameLoop]
      simp only [bigEndian4]
      norm_num
      rw [ih m (by omega) g totalLen (consumed + 5) [] (by omega)]
      simp

/-- C6 (amended): for every payload of fewer than 2^32 bytes, building a
gRPC-Web data frame (flag byte `0`, 4-byte big-endian length, payload) and
parsing it back yields exactly the original payload.  The bound is forced
by the `uint32(len(requestBytes))` truncation in the encoder. -/
theorem grpcweb_frame_roundtrip (payload : List Nat)
    (h : payload.length < 4294967296) :
    parseGRPCWebFrame (encodeGRPCWebFrame payload) = .ok payload := by
  have hb := bigEndian4_encode payload.length h
  rw [parseGRPCWebFrame, encodeGRPCWebFrame, encodeUint32BE]
  rw [if_neg (by simp)]
  simp only [List.cons_append, List.nil_append]
  have hlen : (0 :: payload.length % 4294967296 / 16777216 ::
      payload.length % 4294967296 / 65536 % 256 ::
      payload.length % 4294967296 / 256 % 256 ::
      payload.length % 4294967296 % 256 :: payload).length =
      (payload.length + 4) + 1 := by
    simp only [List.length_cons]
  rw [hlen, grpcWebFrameLoop]
  simp only [hb]
  rw [if_neg (by omega)]
  simp only [List.take_length, List.drop_length, if_pos rfl]
  simp [grpcWebFrameLoop]

/-- C6 (counterexample): the round trip is not the identity for every
payload.  A payload of exactly 2^32 zero bytes encodes to a frame whose
length field wraps to 0, and parsing that frame returns the empty message
instead of the payload. -/
theorem grpcweb_frame_roundtrip_counterexample :
    parseGRPCWebFrame (encodeGRPCWebFrame (List.replicate 4294967296 0)) ≠
      .ok (List.replicate 4294967296 0) := by
  have h1 : encodeGRPCWebFrame (List.replicate 4294967296 0) =
      List.replicate 4294967301 0 := by
    rw [encodeGRPCWebFrame, List.length_replicate]
    have h5 : List.replicate (4294967301 : Nat) (0 : Nat) =
        List.replicate 5 0 ++ List.replicate 4294967296 0 := by
      rw [← List.replicate_add]
    rw [h5]
    norm_num [encodeUint32BE]
    rfl
  have hparse : parseGRPCWebFrame (encodeGRPCWebFrame (List.replicate 4294967296 0)) =
      .ok [] := by
    rw [h1, parseGRPCWebFrame]
    have hie : (List.replicate 4294967301 (0 : Nat)).isEmpty = false := by
      rw [show (4294967301 : Nat) = 4294967300 + 1 from rfl, List.replicate_succ]
      rfl
    rw [hie]
    simp only [Bool.false_eq_true, if_false]
    rw [List.length_replicate]
    rw [grpcWebFrameLoop_replicate_zero 4294967301 4294967301 4294967301 0 [] (le_refl _)]
    rw [if_pos (show (5 : Nat) ≤ 4294967301 by norm_num)]
  intro hEq
  have hlist : ([] : List Nat) = List.replicate 4294967296 0 :=
    Except.ok.inj (hparse.symm.trans hEq)
  have hlen := congrArg List.length hlist
  simp only [List.length_nil, List.length_replicate] at hlen
  exact absurd hlen (by norm_num)

/-- C6 (witness): the round trip at the concrete payload `[1, 2, 3]`. -/
theorem grpcweb_frame_roundtrip_witness :
    parseGRPCWebFrame (encodeGRPCWebFrame [1, 2, 3]) = .ok [1, 2, 3] :=
  grpcweb_frame_roundtrip [1, 2, 3] (by norm_num)

/-- C5 (amended): a frame whose complete five-byte header declares a
payload length larger than the bytes remaining is an explicit
`incomplete frame` error — at any iteration of the loop, and in
particular for a buffer that starts with such a frame — while a trailing
fragment shorter than the five header bytes is silently ignored and the
loop returns what it has collected so far. -/
theorem grpcweb_frame_overrun_error :
    (∀ g totalLen consumed flag b3 b2 b1 b0 rest acc,
      rest.length < bigEndian4 b3 b2 b1 b0 →
      grpcWebFrameLoop (g + 1) totalLen consumed (flag :: b3 :: b2 :: b1 :: b0 :: rest) acc =
        .error ("incomplete frame: expected " ++
          toString (consumed + 5 + bigEndian4 b3 b2 b1 b0) ++
          " bytes, got " ++ toString totalLen)) ∧
    (∀ flag b3 b2 b1 b0 rest, rest.length < bigEndian4 b3 b2 b1 b0 →
      parseGRPCWebFrame (flag :: b3 :: b2 :: b1 :: b0 :: rest) =
        .error ("incomplete frame: expected " ++
          toString (5 + bigEndian4 b3 b2 b1 b0) ++
          " bytes, got " ++ toString (rest.length + 5))) ∧
    (∀ gas totalLen consumed data acc, data.length < 5 →
      grpcWebFrameLoop gas totalLen consumed data acc = .ok acc) := by
  refine ⟨?_, ?_, ?_⟩
  · intro g totalLen consumed flag b3 b2 b1 b0 rest acc hlen
    rw [grpcWebFrameLoop]
    simp only [if_pos (by omega : bigEndian4 b3 b2 b1 b0 > rest.length)]
  · intro flag b3 b2 b1 b0 rest hlen
    rw [parseGRPCWebFrame, if_neg (by simp)]
    have hc : (flag :: b3 :: b2 :: b1 :: b0 :: rest).length = (rest.length + 4) + 1 := by
      simp only [List.length_cons]
    rw [hc, grpcWebFrameLoop]
    rw [if_pos (show bigEndian4 b3 b2 b1 b0 > rest.length from hlen)]
  · intro gas totalLen consumed data acc hlen
    match data with
    | [] => simp [grpcWebFrameLoop]
    | [a] => simp [grpcWebFrameLoop]
    | [a, b] => simp [grpcWebFrameLoop]
    | [a, b, c] => simp [grpcWebFrameLoop]
    | [a, b, c, d] => simp [grpcWebFrameLoop]
    | a :: b :: c :: d :: e :: rest => simp at hlen; omega

/-- C5 (witness): a buffer holding a single frame header that declares one
payload byte but carries none is rejected with the explicit error. -/
theorem grpcweb_frame_overrun_error_witness :
    parseGRPCWebFrame [0, 0, 0, 0, 1] =
      .error "incomplete frame: expected 6 bytes, got 5" := by
  have h := grpcweb_frame_overrun_error.2.1 0 0 0 0 1 [] (by simp [bigEndian4])
  simpa [bigEndian4] using h

/-- C5 (counterexample): the claim also demands an explicit error when
fewer than five header bytes remain, but on the one-byte buffer `[0]` the
parser returns success with an empty message — the partial header is
dropped silently. -/
theorem grpcweb_frame_short_header_counterexample :
    parseGRPCWebFrame [0] = .ok [] := by
  rw [parseGRPCWebFrame, if_neg (by simp)]
  simp [grpcWebFrameLoop]
/-- The `error` field produced by the final status dispatch of the
gRPC-Web invoker is a function of the header status alone. -/
lemma grpcWebFinal_error (hr : GRPCWebHTTPResult) (st : Int) (msg jb : String) :
    (grpcWebFinal hr st msg jb).error =
      if st ≠ 0 then some ⟨st, msg, []⟩ else none := by
  by_cases h : st ≠ 0 <;> simp [grpcWebFinal, h]

/-- C1 (counterexample): a gRPC-Web response whose body is a data frame
followed by a trailer frame whose text reads `grpc-status: 5`, but whose
HTTP headers carry no `grpc-status`, produces a Response with `Error =
nil` — the status carried in the trailer frame does not determine
`Response.Error`, because `parseGRPCWebFrame` skips trailer frames and
`extractGRPCStatus` reads only the HTTP response headers. -/
theorem grpcweb_trailer_status_counterexample :
    grpcWebInvoke sampleRequest trailerStatusWorld =
      .ok { status := 0, statusText := "OK",
            headers := [("Content-Type", ["application/grpc-web+proto"])],
            jsonBody := "{}", error := none } := by
  decide

/-- C1 (amended): `Response.Error` of a gRPC-Web invocation is determined
by the `grpc-status` HTTP response header, not by trailer frames: when
the (possibly base64-decoded) body parses and the message decodes,
`Error` is absent exactly when the header status is 0, and a non-zero
header status `s` yields `Error = ⟨s, grpc-message header, []⟩`; and
whenever the pre-flight steps and the HTTP exchange succeed, the
invocation returns exactly that processed response. -/
theorem grpcweb_status_from_headers :
    (∀ (w : GRPCWebWorld) (hr : GRPCWebHTTPResult) (body : List Nat) (md : List Nat),
      parseGRPCWebFrame (grpcWebDecodedBody w hr body) = .ok md →
      w.unmarshalResp = none →
      (((grpcWebProcessBody w hr body).error = none ↔ extractGRPCStatus hr.headers = 0) ∧
       (extractGRPCStatus hr.headers ≠ 0 →
         (grpcWebProcessBody w hr body).error =
           some ⟨extractGRPCStatus hr.headers, headerGet hr.headers "grpc-message", []⟩))) ∧
    (∀ (req : Request) (w : GRPCWebWorld) (hr : GRPCWebHTTPResult) (body : List Nat),
      requestValidate req = none →
      (req.jsonBody = "" ∨ w.unmarshalReq = none) →
      w.marshalReq.isOk = true →
      w.newRequest = none →
      w.httpDo = .ok hr →
      hr.readBody = .ok body →
      grpcWebInvoke req w = .ok (grpcWebProcessBody w hr body)) := by
  constructor
  · intro w hr body md hparse hun
    have hmain : (grpcWebProcessBody w hr body).error =
        (if extractGRPCStatus hr.headers ≠ 0 then
          some ⟨extractGRPCStatus hr.headers, headerGet hr.headers "grpc-message", []⟩
        else none) := by
      simp only [grpcWebProcessBody]
      by_cases hb : grpcWebDecodedBody w hr body = []
      · simp [hb, grpcWebFinal_error]
      · by_cases hmd : md = []
        · simp [hb, hparse, hmd, grpcWebFinal_error]
        · simp [hb, hparse, hmd, hun, grpcWebFinal_error]
    constructor
    · rw [hmain]
      by_cases hs : extractGRPCStatus hr.headers = 0 <;> simp [hs]
    · intro hs
      rw [hmain, if_pos hs]
  · intro req w hr body hval hjson hm hnr hdo hread
    have hstep : grpcWebStep2 w = .ok (grpcWebProcessBody w hr body) := by
      rw [grpcWebStep2]
      match hmr : w.marshalReq with
      | .error e =>
        rw [hmr] at hm
        simp [Except.isOk, Except.toBool] at hm
      | .ok rb =>
        simp only [hnr, hdo, hread]
    rw [grpcWebInvoke, hval]
    rcases hjson with hj | hu
    · simp only [hj, ne_eq, not_true_eq_false, if_false, hstep]
    · by_cases hj : req.jsonBody = ""
      · simp only [hj, ne_eq, not_true_eq_false, if_false, hstep]
      · rw [if_pos hj, hu, hstep]

/-- C1 (witness): with `grpc-status: 5` and `grpc-message: boom` in the
HTTP response headers, the processed response carries `Error.Code = 5`,
and the invocation returns it. -/
theorem grpcweb_status_from_headers_witness :
    (grpcWebProcessBody headerStatusWorld headerStatusHTTP [0, 0, 0, 0, 1, 10]).error =
      some ⟨5, "boom", []⟩ ∧
    grpcWebInvoke sampleRequest headerStatusWorld =
      .ok (grpcWebProcessBody headerStatusWorld headerStatusHTTP [0, 0, 0, 0, 1, 10]) :=
  ⟨by
    have h := (grpcweb_status_from_headers.1 headerStatusWorld headerStatusHTTP
      [0, 0, 0, 0, 1, 10] [10] (by decide) rfl).2 (by decide)
    rw [h]
    decide,
   grpcweb_status_from_headers.2 sampleRequest headerStatusWorld headerStatusHTTP
     [0, 0, 0, 0, 1, 10] rfl (Or.inl rfl) rfl rfl rfl rfl⟩

/-- `Except.isOk` on a success. -/
lemma except_isOk_ok {e a : Type} (x : a) : (Except.ok x : Except e a).isOk = true := rfl

/-- `Except.isOk` on an error. -/
lemma except_isOk_error {e a : Type} (x : e) : (Except.error x : Except e a).isOk = false := rfl

/-- Hard errors of `connectStep2` are exactly the pre-flight marshal and
request-construction failures. -/
lemma connectStep2_error_iff (w : ConnectWorld) :
    (connectStep2 w).isOk = false ↔
      (w.marshalReq.isOk = false ∨ (w.marshalReq.isOk = true ∧ w.newRequest ≠ none)) := by
  cases hm : w.marshalReq with
  | error e => simp [connectStep2, hm, except_isOk_ok, except_isOk_error]
  | ok rb =>
    cases hn : w.newRequest with
    | some e => simp [connectStep2, hm, hn, except_isOk_ok, except_isOk_error]
    | none =>
      cases hd : w.httpDo with
      | error e => simp [connectStep2, hm, hn, hd, except_isOk_ok, except_isOk_error]
      | ok hr =>
        cases hb : hr.readBody with
        | error e => simp [connectStep2, hm, hn, hd, hb, except_isOk_ok, except_isOk_error]
        | ok body =>
          by_cases hs : hr.statusCode = 200
          · by_cases hbe : body = ""
            · simp [connectStep2, hm, hn, hd, hb, hs, hbe, connectFinish, except_isOk_ok, except_isOk_error]
            · cases hu : w.unmarshalResp with
              | some e => simp [connectStep2, hm, hn, hd, hb, hs, hbe, hu, except_isOk_ok, except_isOk_error]
              | none =>
                simp [connectStep2, hm, hn, hd, hb, hs, hbe, hu, connectFinish, except_isOk_ok, except_isOk_error]
          · simp [connectStep2, hm, hn, hd, hb, hs, except_isOk_ok, except_isOk_error]

/-- Hard errors of `grpcWebStep2` are exactly the pre-flight marshal and
request-construction failures. -/
lemma grpcWebStep2_error_iff (w : GRPCWebWorld) :
    (grpcWebStep2 w).isOk = false ↔
      (w.marshalReq.isOk = false ∨ (w.marshalReq.isOk = true ∧ w.newRequest ≠ none)) := by
  cases hm : w.marshalReq with
  | error e => simp [grpcWebStep2, hm, except_isOk_ok, except_isOk_error]
  | ok rb =>
    cases hn : w.newRequest with
    | some e => simp [grpcWebStep2, hm, hn, except_isOk_ok, except_isOk_error]
    | none =>
      cases hd : w.httpDo with
      | error e => simp [grpcWebStep2, hm, hn, hd, except_isOk_ok, except_isOk_error]
      | ok hr =>
        cases hb : hr.readBody with
        | error e => simp [grpcWebStep2, hm, hn, hd, hb, except_isOk_ok, except_isOk_error]
        | ok body => simp [grpcWebStep2, hm, hn, hd, hb, except_isOk_ok, except_isOk_error]

/-- `grpcAfterParse` never returns a hard error. -/
lemma grpcAfterParse_not_hard (w : GRPCWorld) :
    grpcIsHardError (grpcAfterParse w) = false := by
  cases hi : w.invokeErr with
  | some st =>
    by_cases hst : st.isStatusErr <;> simp [grpcAfterParse, hi, hst, grpcIsHardError]
  | none => simp [grpcAfterParse, hi, grpcIsHardError]

/-- C3 (counterexample): the Connect invoker returns a hard error for a
request that passed validation (and Connect performs no dial at all): a
failing `http.NewRequestWithContext` propagates as `return nil, err`,
which is neither a validation failure, a nil descriptor, nor a dial
failure. -/
theorem invoke_hard_error_counterexample :
    (connectInvoke badURLRequest newRequestFailWorld).isOk = false ∧
    requestValidate badURLRequest = none := by
  decide

/-- C3 (amended): hard errors from `Invoke` are exactly the pre-flight
failures — validation, request marshalling, HTTP request construction —
while a `grpc.Dial` failure and every wire-level or upstream failure
(JSON parse failure, connection failure, read failure, non-success HTTP
status, non-OK gRPC status) are returned as a nil error with a populated
`Response.Error`. -/
theorem invoke_hard_error_boundary :
    (∀ (req : Request) (w : ConnectWorld),
      (connectInvoke req w).isOk = false ↔
        (requestValidate req ≠ none ∨
          ((req.jsonBody = "" ∨ w.unmarshalReq = none) ∧
           (w.marshalReq.isOk = false ∨ (w.marshalReq.isOk = true ∧ w.newRequest ≠ none))))) ∧
    (∀ (req : Request) (w : GRPCWebWorld),
      (grpcWebInvoke req w).isOk = false ↔
        (requestValidate req ≠ none ∨
          ((req.jsonBody = "" ∨ w.unmarshalReq = none) ∧
           (w.marshalReq.isOk = false ∨ (w.marshalReq.isOk = true ∧ w.newRequest ≠ none))))) ∧
    (∀ (req : Request) (w : GRPCWorld),
      grpcIsHardError (grpcInvoke req w) = true ↔ requestValidate req ≠ none) ∧
    (∀ (req : Request) (w : GRPCWorld) (t e : String),
      requestValidate req = none → grpcTarget req.baseURL = .returned t → w.dial = some e →
      grpcInvoke req w = .response
        { status := 14, statusText := "Connection Failed", headers := [], jsonBody := "",
          error := some ⟨14, "failed to connect to gRPC server: " ++ e, []⟩ }) ∧
    (∀ (req : Request) (w : ConnectWorld) (e : String),
      requestValidate req = none → req.jsonBody ≠ "" → w.unmarshalReq = some e →
      connectInvoke req w = .ok
        { status := 400, statusText := "Bad Request", headers := [], jsonBody := "",
          error := some ⟨400, "failed to parse JSON request: " ++ e, []⟩ }) ∧
    (∀ (req : Request) (w : ConnectWorld) (e : String),
      requestValidate req = none → (req.jsonBody = "" ∨ w.unmarshalReq = none) →
      w.marshalReq.isOk = true → w.newRequest = none → w.httpDo = .error e →
      connectInvoke req w = .ok
        { status := 0, statusText := "Request Failed", headers := [], jsonBody := "",
          error := some ⟨0, "HTTP request failed: " ++ e, []⟩ }) ∧
    (∀ (req : Request) (w : ConnectWorld) (hr : ConnectHTTPResult) (body : String),
      requestValidate req = none → (req.jsonBody = "" ∨ w.unmarshalReq = none) →
      w.marshalReq.isOk = true → w.newRequest = none → w.httpDo = .ok hr →
      hr.readBody = .ok body → hr.statusCode ≠ 200 →
      connectInvoke req w = .ok
        { status := hr.statusCode, statusText := hr.status, headers := hr.headers,
          jsonBody := body,
          error := some ⟨hr.statusCode, "RPC failed with status " ++ toString hr.statusCode,
            [body]⟩ }) ∧
    (∀ (req : Request) (w : GRPCWorld) (st : GRPCStatusError),
      requestValidate req = none → (∃ t, grpcTarget req.baseURL = .returned t) →
      w.dial = none → (req.jsonBody = "" ∨ w.unmarshalReq = none) →
      w.invokeErr = some st → st.isStatusErr = true →
      grpcInvoke req w = .response
        { status := st.code, statusText := codeString st.code, headers := w.respHeaders,
          jsonBody := "", error := some ⟨st.code, st.message, st.details⟩ }) := by
  refine ⟨?_, ?_, ?_, ?_, ?_, ?_, ?_, ?_⟩
  · intro req w
    cases hv : requestValidate req with
    | some e => simp [connectInvoke, hv, except_isOk_ok, except_isOk_error]
    | none =>
      by_cases hj : req.jsonBody = ""
      · simp only [connectInvoke, hv, hj, ne_eq, not_true_eq_false, if_false]
        rw [connectStep2_error_iff]
        simp [hj]
      · cases hu : w.unmarshalReq with
        | some e => simp [connectInvoke, hv, hj, hu, except_isOk_ok, except_isOk_error]
        | none =>
          simp only [connectInvoke, hv, ne_eq, hj, not_false_eq_true, if_true, hu]
          rw [connectStep2_error_iff]
          simp [hj, hu]
  · intro req w
    cases hv : requestValidate req with
    | some e => simp [grpcWebInvoke, hv, except_isOk_ok, except_isOk_error]
    | none =>
      by_cases hj : req.jsonBody = ""
      · simp only [grpcWebInvoke, hv, hj, ne_eq, not_true_eq_false, if_false]
        rw [grpcWebStep2_error_iff]
        simp [hj]
      · cases hu : w.unmarshalReq with
        | some e => simp [grpcWebInvoke, hv, hj, hu, except_isOk_ok, except_isOk_error]
        | none =>
          simp only [grpcWebInvoke, hv, ne_eq, hj, not_false_eq_true, if_true, hu]
          rw [grpcWebStep2_error_iff]
          simp [hj, hu]
  · intro req w
    cases hv : requestValidate req with
    | some e => simp [grpcInvoke, hv, grpcIsHardError]
    | none =>
      cases ht : grpcTarget req.baseURL with
      | panicked m => simp [grpcInvoke, hv, ht, grpcIsHardError]
      | returned t =>
        cases hd : w.dial with
        | some e => simp [grpcInvoke, hv, ht, hd, grpcIsHardError]
        | none =>
          by_cases hj : req.jsonBody = ""
          · simp [grpcInvoke, hv, ht, hd, hj, grpcAfterParse_not_hard]
          · cases hu : w.unmarshalReq with
            | some e => simp [grpcInvoke, hv, ht, hd, hj, hu, grpcIsHardError]
            | none => simp [grpcInvoke, hv, ht, hd, hj, hu, grpcAfterParse_not_hard]
  · intro req w t e hv ht hd
    simp [grpcInvoke, hv, ht, hd]
  · intro req w e hv hj hu
    simp [connectInvoke, hv, hj, hu]
  · intro req w e hv hjson hm hn hd
    have hstep : connectStep2 w = .ok
        { status := 0, statusText := "Request Failed", headers := [], jsonBody := "",
          error := some ⟨0, "HTTP request failed: " ++ e, []⟩ } := by
      cases hmr : w.marshalReq with
      | error e2 => rw [hmr] at hm; simp [except_isOk_error] at hm
      | ok rb => simp [connectStep2, hmr, hn, hd]
    rcases hjson with hj | hu
    · simp [connectInvoke, hv, hj, hstep]
    · by_cases hj : req.jsonBody = ""
      · simp [connectInvoke, hv, hj, hstep]
      · simp [connectInvoke, hv, hj, hu, hstep]
  · intro req w hr body hv hjson hm hn hd hb hs
    have hstep : connectStep2 w = .ok
        { status := hr.statusCode, statusText := hr.status, headers := hr.headers,
          jsonBody := body,
          error := some ⟨hr.statusCode, "RPC failed with status " ++ toString hr.statusCode,
            [body]⟩ } := by
      cases hmr : w.marshalReq with
      | error e2 => rw [hmr] at hm; simp [except_isOk_error] at hm
      | ok rb => simp [connectStep2, hmr, hn, hd, hb, hs]
    rcases hjson with hj | hu
    · simp [connectInvoke, hv, hj, hstep]
    · by_cases hj : req.jsonBody = ""
      · simp [connectInvoke, hv, hj, hstep]
      · simp [connectInvoke, hv, hj, hu, hstep]
  · intro req w st hv ht hd hjson hi hst
    obtain ⟨t, ht⟩ := ht
    have hafter : grpcAfterParse w = .response
        { status := st.code, statusText := codeString st.code, headers := w.respHeaders,
          jsonBody := "", error := some ⟨st.code, st.message, st.details⟩ } := by
      simp [grpcAfterParse, hi, hst]
    rcases hjson with hj | hu
    · simp [grpcInvoke, hv, ht, hd, hj, hafter]
    · by_cases hj : req.jsonBody = ""
      · simp [grpcInvoke, hv, ht, hd, hj, hafter]
      · simp [grpcInvoke, hv, ht, hd, hj, hu, hafter]

/-- C3 (witness): the boundary at concrete inputs — a request-construction
failure is a hard error though validation passed; a dial failure and a
request-JSON parse failure come back as populated `Response.Error`s. -/
theorem invoke_hard_error_boundary_witness :
    (connectInvoke badURLRequest newRequestFailWorld).isOk = false ∧
    grpcInvoke sampleRequest dialFailWorld = .response
      { status := 14, statusText := "Connection Failed", headers := [], jsonBody := "",
        error := some ⟨14,
          "failed to connect to gRPC server: passthrough resolver: missing address", []⟩ } ∧
    connectInvoke jsonBodyRequest parseFailConnectWorld = .ok
      { status := 400, statusText := "Bad Request", headers := [], jsonBody := "",
        error := some ⟨400, "failed to parse JSON request: proto: syntax error", []⟩ } :=
  ⟨(invoke_hard_error_boundary.1 badURLRequest newRequestFailWorld).mpr
      (Or.inr ⟨Or.inl rfl, Or.inr ⟨rfl, by decide⟩⟩),
   invoke_hard_error_boundary.2.2.2.1 sampleRequest dialFailWorld "example.com"
      "passthrough resolver: missing address" rfl (by decide) rfl,
   invoke_hard_error_boundary.2.2.2.2.1 jsonBodyRequest parseFailConnectWorld
      "proto: syntax error" rfl (by decide) rfl⟩

/-- C2 (counterexample): with a fully healthy pipeline — config present,
form parsed, registry and method found, environment resolved, an invoker
that would succeed — a request whose resolved transport is `grpc-web` is
rejected with 501 `gRPC-Web transport is not yet implemented` instead of
being dispatched to the gRPC-Web invoker. -/
theorem handler_grpcweb_rejected_counterexample :
    handleTryItInvoke (some webEnvConfig) webForm okHandlerWorld =
      .jsonError 501 "gRPC-Web transport is not yet implemented" := by
  decide

/-- C2 (amended): once the pre-dispatch steps succeed and the transport
resolves, the handler dispatches `connect` and `grpc` requests to the
corresponding invoker, executes the call with the request built from the
configured environment, and renders its response (a hard invoker error
becoming a 500); a resolved `grpc-web` transport is rejected with 501
without consulting any invoker. -/
theorem handler_transport_dispatch (config : Config) (form : TryItForm)
    (w : HandlerWorld) (env : Environment) (t : Transport)
    (reqHeaders : List (String × String))
    (hpf : w.parseForm = none)
    (hH : (if form.headersJSON ≠ "" ∧ form.headersJSON ≠ "{}" then w.headersParse
      else .ok []) = .ok reqHeaders)
    (hsz : validateJSONSize form.body config.maxRequestBodyBytes = none)
    (hreg : w.registryPresent = true)
    (hmeth : w.methodFound = true)
    (henv : getEnvironment config form.environment = .ok env)
    (hpt : parseTransport (if form.transport = "" then env.transport else form.transport) =
      .ok t) :
    (t = .grpcWeb →
      handleTryItInvoke (some config) form w =
        .jsonError 501 "gRPC-Web transport is not yet implemented") ∧
    (t ≠ .grpcWeb → w.templateRender = none →
      ∀ resp, w.invoke t (handlerRequest config form env reqHeaders) = .ok resp →
        handleTryItInvoke (some config) form w = .rendered (mkTryItResponse resp)) ∧
    (t ≠ .grpcWeb →
      ∀ e, w.invoke t (handlerRequest config form env reqHeaders) = .error e →
        handleTryItInvoke (some config) form w =
          .jsonError 500 ("invocation failed: " ++ e)) := by
  refine ⟨?_, ?_, ?_⟩
  · intro ht
    subst ht
    simp only [handleTryItInvoke, hpf, hH, hsz, hreg, hmeth, henv, hpt,
      not_true_eq_false, if_false]
  · intro ht htmpl resp hinv
    simp only [handlerRequest] at hinv
    cases t with
    | grpcWeb => exact absurd rfl ht
    | connect =>
      simp only [handleTryItInvoke, hpf, hH, hsz, hreg, hmeth, henv, hpt,
        not_true_eq_false, if_false, hinv, htmpl]
    | grpc =>
      simp only [handleTryItInvoke, hpf, hH, hsz, hreg, hmeth, henv, hpt,
        not_true_eq_false, if_false, hinv, htmpl]
  · intro ht e hinv
    simp only [handlerRequest] at hinv
    cases t with
    | grpcWeb => exact absurd rfl ht
    | connect =>
      simp only [handleTryItInvoke, hpf, hH, hsz, hreg, hmeth, henv, hpt,
        not_true_eq_false, if_false, hinv]
    | grpc =>
      simp only [handleTryItInvoke, hpf, hH, hsz, hreg, hmeth, henv, hpt,
        not_true_eq_false, if_false, hinv]

/-- C2 (witness): the same healthy pipeline with the form overriding the
transport to `connect` dispatches to the Connect invoker and renders its
response. -/
theorem handler_transport_dispatch_witness :
    handleTryItInvoke (some webEnvConfig)
      { environment := "dev", method := "echo.v1.EchoService/Echo",
        transport := "connect", body := "", headersJSON := "" }
      okHandlerWorld = .rendered (mkTryItResponse okResponse) :=
  (handler_transport_dispatch webEnvConfig
    { environment := "dev", method := "echo.v1.EchoService/Echo",
      transport := "connect", body := "", headersJSON := "" }
    okHandlerWorld
    { name := "dev", baseURL := "https://example.com", transport := "grpc-web",
      tls := { insecureSkipVerify := false }, defaultHeaders := [] }
    .connect [] rfl (by decide) (by decide) rfl rfl (by decide) (by decide)).2.1
    (by decide) rfl okResponse rfl

/-- C8: header filtering — an empty allowlist returns the caller's map
unchanged; with a non-empty allowlist a header pair survives exactly when
its name matches some allowlist entry case-insensitively, keys and values
passing through untouched; and the spec's example filters as stated. -/
theorem filter_headers_spec :
    (∀ (headers : List (String × String)) (allowlist : List String),
      allowlist = [] → filterHeaders headers allowlist = headers) ∧
    (∀ (headers : List (String × String)) (allowlist : List String) (k v : String),
      allowlist ≠ [] →
      ((k, v) ∈ filterHeaders headers allowlist ↔
        (k, v) ∈ headers ∧ ∃ a ∈ allowlist, strToLower a = strToLower k)) ∧
    filterHeaders [("Authorization", "x"), ("X-Foo", "y")] ["authorization"] =
      [("Authorization", "x")] := by
  refine ⟨?_, ?_, by decide⟩
  · intro headers allowlist h
    simp [filterHeaders, h]
  · intro headers allowlist k v h
    simp only [filterHeaders]
    rw [if_neg h]
    simp only [List.mem_filter, decide_eq_true_eq]
    constructor
    · rintro ⟨hmem, hc⟩
      have hmm : strToLower k ∈ allowlist.map strToLower := List.elem_iff.mp hc
      obtain ⟨a, ha, hea⟩ := List.mem_map.mp hmm
      exact ⟨hmem, a, ha, hea⟩
    · rintro ⟨hmem, a, ha, hea⟩
      exact ⟨hmem, List.elem_iff.mpr (List.mem_map.mpr ⟨a, ha, hea⟩)⟩

/-- C8 (witness): empty allowlist passes a map through; the
`authorization` allowlist keeps the `Authorization` pair of the spec's
example. -/
theorem filter_headers_spec_witness :
    filterHeaders [("X-Foo", "y")] [] = [("X-Foo", "y")] ∧
    (("Authorization", "x") ∈
        filterHeaders [("Authorization", "x"), ("X-Foo", "y")] ["authorization"] ↔
      ("Authorization", "x") ∈ [("Authorization", "x"), ("X-Foo", "y")] ∧
      ∃ a ∈ ["authorization"], strToLower a = strToLower "Authorization") :=
  ⟨filter_headers_spec.1 [("X-Foo", "y")] [] rfl,
   filter_headers_spec.2.1 [("Authorization", "x"), ("X-Foo", "y")] ["authorization"]
     "Authorization" "x" (by decide)⟩

/-- `Environment.Validate` succeeds exactly on `envOK` environments. -/
lemma environmentValidate_isOk (e : Environment) :
    (environmentValidate e).isOk = envOK e := by
  unfold environmentValidate envOK
  by_cases h1 : e.name = ""
  · simp [h1, except_isOk_error]
  · by_cases h2 : e.baseURL = ""
    · simp [h1, h2, except_isOk_error]
    · cases hu : urlParse e.baseURL with
      | error err => simp [h1, h2, hu, except_isOk_error]
      | ok u =>
        by_cases h3 : u.scheme = ""
        · simp [h1, h2, hu, h3, except_isOk_error]
        · by_cases h4 : u.host = ""
          · simp [h1, h2, hu, h3, h4, except_isOk_error]
          · by_cases h5 : e.transport = ""
            · simp [h1, h2, hu, h3, h4, h5, except_isOk_ok]
            · by_cases h6 : e.transport = "connect" ∨ e.transport = "grpc" ∨
                e.transport = "grpc-web"
              · simp [h1, h2, hu, h3, h4, h5, h6, except_isOk_ok]
              · simp [h1, h2, hu, h3, h4, h5, h6, except_isOk_error]

/-- The environment loop of `Config.Validate` succeeds exactly when the
names (including against `seen`) are distinct and every environment
validates. -/
lemma configValidateAux_isOk (envs : List Environment) : ∀ seen : List String,
    (configValidateAux seen envs).isOk = true ↔
      ((envs.map Environment.name).Nodup ∧
       (∀ e ∈ envs, e.name ∉ seen) ∧
       (∀ e ∈ envs, envOK e = true)) := by
  induction envs with
  | nil =>
    intro seen
    simp [configValidateAux, except_isOk_ok]
  | cons env rest ih =>
    intro seen
    by_cases hdup : seen.contains env.name
    · have hmem : env.name ∈ seen := List.elem_iff.mp hdup
      simp only [configValidateAux, hdup, if_true, except_isOk_error,
        Bool.false_eq_true, false_iff]
      rintro ⟨-, h2, -⟩
      exact h2 env (List.mem_cons_self env rest) hmem
    · have hnmem : env.name ∉ seen := fun hm => hdup (List.elem_iff.mpr hm)
      cases hv : environmentValidate env with
      | error msg =>
        have hbad : envOK env = false := by
          rw [← environmentValidate_isOk, hv]
          rfl
        simp only [configValidateAux, Bool.not_eq_true] at hdup ⊢
        simp only [hdup, Bool.false_eq_true, if_false, hv, except_isOk_error, false_iff]
        rintro ⟨-, -, h3⟩
        have := h3 env (List.mem_cons_self env rest)
        rw [hbad] at this
        exact Bool.false_ne_true this
      | ok env2 =>
        have hgood : envOK env = true := by
          rw [← environmentValidate_isOk, hv]
          rfl
        have hstep : (configValidateAux seen (env :: rest)).isOk =
            (configValidateAux (env.name :: seen) rest).isOk := by
          have hdup2 : seen.contains env.name = false := by
            simpa using hdup
          simp only [configValidateAux, hdup2, Bool.false_eq_true, if_false, hv]
          cases ha : configValidateAux (env.name :: seen) rest <;>
            simp [ha, except_isOk_ok, except_isOk_error]
        rw [hstep, ih (env.name :: seen)]
        constructor
        · rintro ⟨hnd, hseen, hok⟩
          refine ⟨?_, ?_, ?_⟩
          · simp only [List.map_cons, List.nodup_cons]
            refine ⟨?_, hnd⟩
            intro hmm
            obtain ⟨e, he, hee⟩ := List.mem_map.mp hmm
            exact (hseen e he) (by simp [hee])
          · intro e he
            rcases List.mem_cons.mp he with rfl | he2
            · exact hnmem
            · intro hin
              exact (hseen e he2) (List.mem_cons_of_mem _ hin)
          · intro e he
            rcases List.mem_cons.mp he with rfl | he2
            · exact hgood
            · exact hok e he2
        · rintro ⟨hnd, hseen, hok⟩
          simp only [List.map_cons, List.nodup_cons] at hnd
          refine ⟨hnd.2, ?_, ?_⟩
          · intro e he hin
            rcases List.mem_cons.mp hin with heq | hin2
            · exact hnd.1 (List.mem_map.mpr ⟨e, he, heq⟩)
            · exact (hseen e (List.mem_cons_of_mem _ he)) hin2
          · intro e he
            exact hok e (List.mem_cons_of_mem _ he)

/-- C9: `Config.Validate` accepts a configuration exactly when the
environment names are pairwise distinct, every environment passes
`envOK` (name present, base URL with scheme and host, transport empty or
one of the three literals), and the two limits are non-negative; the
duplicate-`dev` configuration fails with the duplicate-name error, and a
base URL of `https://` fails for the missing host. -/
theorem config_validate_spec :
    (∀ c : Config, (configValidate c).isOk = true ↔
      ((c.environments.map Environment.name).Nodup ∧
       (∀ e ∈ c.environments, envOK e = true) ∧
       0 ≤ c.maxRequestBodyBytes ∧ 0 ≤ c.requestTimeoutSeconds)) ∧
    configValidate dupDevConfig = .error "duplicate environment name: \"dev\"" ∧
    environmentValidate httpsNoHostEnv = .error "baseURL must include a host" := by
  refine ⟨?_, by decide, by decide⟩
  intro c
  have haux := configValidateAux_isOk c.environments []
  simp only [List.not_mem_nil, not_false_eq_true, implies_true, true_and] at haux
  cases ha : configValidateAux [] c.environments with
  | error e =>
    rw [ha] at haux
    simp only [except_isOk_error, Bool.false_eq_true, false_iff] at haux
    simp only [configValidate, ha, except_isOk_error, Bool.false_eq_true, false_iff]
    rintro ⟨hnd, hok, -⟩
    exact haux ⟨hnd, hok⟩
  | ok envs =>
    rw [ha] at haux
    simp only [except_isOk_ok, true_iff] at haux
    obtain ⟨hnd, hok⟩ := haux
    simp only [configValidate, ha]
    by_cases hm : c.maxRequestBodyBytes < 0
    · simp [hm, except_isOk_error, hnd, hok]
    · by_cases ht : c.requestTimeoutSeconds < 0
      · simp [hm, ht, except_isOk_error, hnd, hok]
      · have h1 : 0 ≤ c.maxRequestBodyBytes := by omega
        have h2 : 0 ≤ c.requestTimeoutSeconds := by omega
        simp only [hm, ht, if_false, except_isOk_ok, true_iff]
        exact ⟨hnd, hok, h1, h2⟩

/-- C10: `ParseTransport` succeeds exactly for `connect`, `grpc`,
`grpc-web` and the empty string; the empty string maps to the connect
transport with no error; and `Environment.Validate` accepts an empty
transport field by defaulting it to `connect`. -/
theorem parse_transport_spec :
    (∀ s : String, (parseTransport s).isOk = true ↔
      (s = "connect" ∨ s = "" ∨ s = "grpc" ∨ s = "grpc-web")) ∧
    parseTransport "" = .ok .connect ∧
    (∀ (e : Environment) (u : GoURL),
      e.transport = "" → e.name ≠ "" → e.baseURL ≠ "" →
      urlParse e.baseURL = .ok u → u.scheme ≠ "" → u.host ≠ "" →
      environmentValidate e = .ok { e with transport := "connect" }) := by
  refine ⟨?_, rfl, ?_⟩
  · intro s
    by_cases h1 : s = "connect" ∨ s = ""
    · simp only [parseTransport, h1, if_true, except_isOk_ok, true_iff]
      tauto
    · by_cases h2 : s = "grpc"
      · simp [parseTransport, h1, h2, except_isOk_ok]
      · by_cases h3 : s = "grpc-web"
        · simp [parseTransport, h1, h2, h3, except_isOk_ok]
        · simp only [parseTransport, h1, h2, h3, if_false, except_isOk_error, false_iff]
          tauto
  · intro e u ht hn hb hu hs hh
    simp [environmentValidate, hn, hb, hu, hs, hh, ht, defaultTransport]

/-- C10 (witness): `grpc` is accepted, and the valid no-transport
environment validates with transport defaulted to `connect`. -/
theorem parse_transport_spec_witness :
    ((parseTransport "grpc").isOk = true ↔
      ("grpc" = "connect" ∨ "grpc" = "" ∨ "grpc" = "grpc" ∨ "grpc" = "grpc-web")) ∧
    environmentValidate validConnectEnvNoTransport =
      .ok { validConnectEnvNoTransport with transport := "connect" } :=
  ⟨parse_transport_spec.1 "grpc",
   parse_transport_spec.2.2 validConnectEnvNoTransport
     { scheme := "https", host := "dev.example.com" } rfl (by decide) (by decide)
     (by decide) (by decide) (by decide)⟩

/-- C4 (counterexample): for the two-member oneof `[a, b]` of
`test.OneofMsg`, the generated object contains BOTH keys `a` and `b` —
the non-first member `b` appears as a key (carrying the first member's
value), refuting that only the first declared member is populated. -/
theorem oneof_all_members_counterexample :
    generateExampleValue oneofEnv defaultExampleOptions "test.OneofMsg" =
      .ok (.obj [("a", .str "example_a"), ("b", .str "example_a")]) := rfl

/-- C4 (amended): oneof selection is a fixed policy — the VALUE generated
for any member of a oneof is always that of the first declared member —
but the field loop stores that value under every included member's own
JSON name, so each member of the oneof appears as a key. -/
theorem oneof_first_member_value :
    (∀ (recurse : String → Except String JValue) (field f0 : FieldDescr)
        (fs : List FieldDescr),
      field.mapEntry = none → field.repeatedCard = false →
      field.oneofFields = some (f0 :: fs) →
      genFieldWith recurse field = (genScalarWith recurse f0).map some) ∧
    (∀ (recurse : String → Except String JValue) (options : ExampleOptions)
        (field f0 : FieldDescr) (fs rest : List FieldDescr) (v : JValue),
      shouldIncludeField field options = true →
      field.mapEntry = none → field.repeatedCard = false →
      field.oneofFields = some (f0 :: fs) →
      genScalarWith recurse f0 = .ok v →
      genFieldsWith recurse options (field :: rest) =
        (genFieldsWith recurse options rest).map (fun kvs => (field.jsonName, v) :: kvs)) := by
  constructor
  · intro recurse field f0 fs hm hr ho
    simp only [genFieldWith, hm, hr, ho, genOneofWith, Bool.false_eq_true, if_false]
    cases hs : genScalarWith recurse f0 <;> simp [Except.map]
  · intro recurse options field f0 fs rest v hinc hm hr ho hs
    simp only [genFieldsWith, hinc, if_true, genFieldWith, hm, hr, ho, genOneofWith,
      Bool.false_eq_true, if_false, hs]
    cases hrest : genFieldsWith recurse options rest <;> simp [Except.map]

/-- C4 (witness): field `b` of the oneof `[a, b]` receives the first
member's string value `example_a`, stored under `b`'s own key. -/
theorem oneof_first_member_value_witness :
    genFieldWith unusedRecurse fieldB = (genScalarWith unusedRecurse oneofA).map some ∧
    genFieldsWith unusedRecurse defaultExampleOptions [fieldB] =
      (genFieldsWith unusedRecurse defaultExampleOptions []).map
        (fun kvs => (fieldB.jsonName, .str "example_a") :: kvs) :=
  ⟨oneof_first_member_value.1 unusedRecurse fieldB oneofA [oneofB] rfl rfl rfl,
   oneof_first_member_value.2 unusedRecurse defaultExampleOptions fieldB oneofA
     [oneofB] [] (.str "example_a") (by decide) rfl rfl rfl rfl⟩

/-- `generateEnumValue` always yields a string atom. -/
lemma generateEnumValue_depth (values : List (String × Int)) :
    jdepth (generateEnumValue values) = 0 := by
  unfold generateEnumValue
  split
  · simp [jdepth]
  · split <;> simp [jdepth]

/-- Scalar values stay within the bound promised for nested messages. -/
lemma genScalarWith_depth (recurse : String → Except String JValue) (D : Nat)
    (HD : ∀ name v, recurse name = .ok v → jdepth v ≤ D) :
    ∀ field v, genScalarWith recurse field = .ok v → jdepth v ≤ D := by
  intro field v h
  cases hk : field.kind <;> rw [genScalarWith, hk] at h
  case boolK => cases h; simp [jdepth]
  case int32K => cases h; simp [jdepth]
  case int64K => cases h; simp [jdepth]
  case uint32K => cases h; simp [jdepth]
  case uint64K => cases h; simp [jdepth]
  case floatK => cases h; simp [jdepth]
  case doubleK => cases h; simp [jdepth]
  case stringK => cases h; simp [jdepth]
  case bytesK => cases h; simp [jdepth]
  case enumK values => cases h; simp [generateEnumValue_depth]
  case messageK msgName => exact HD _ _ h
  case groupK => cases h

/-- Repeated values add one array level over their items. -/
lemma genRepeatedWith_depth (recurse : String → Except String JValue) (D : Nat)
    (HD : ∀ name v, recurse name = .ok v → jdepth v ≤ D) :
    ∀ field v, genRepeatedWith recurse field = .ok v → jdepth v ≤ D + 1 := by
  intro field v h
  unfold genRepeatedWith at h
  split at h
  · cases hs : genScalarWith recurse field with
    | error e => rw [hs] at h; cases h
    | ok x =>
      rw [hs] at h
      cases h
      have := genScalarWith_depth recurse D HD field x hs
      simp only [jdepth, jdepthList]
      omega
  · cases hs : genScalarWith recurse field with
    | error e => rw [hs] at h; cases h
    | ok x =>
      rw [hs] at h
      cases h
      have := genScalarWith_depth recurse D HD field x hs
      simp only [jdepth, jdepthList]
      omega

/-- Map values add one object level over their entries. -/
lemma genMapWith_depth (recurse : String → Except String JValue) (D : Nat)
    (HD : ∀ name v, recurse name = .ok v → jdepth v ≤ D) :
    ∀ kf vf v, genMapWith recurse kf vf = .ok v → jdepth v ≤ D + 1 := by
  intro kf vf v h
  unfold genMapWith at h
  cases hk0 : genScalarWith recurse kf with
  | error e => rw [hk0] at h; cases h
  | ok k0 =>
    cases hv0 : genScalarWith recurse vf with
    | error e => rw [hk0, hv0] at h; cases h
    | ok v0 =>
      rw [hk0, hv0] at h
      simp only [Except.ok.injEq] at h
      subst h
      have h1 := genScalarWith_depth recurse D HD vf v0 hv0
      simp only [jdepth, jdepthFields]
      omega

/-- Oneof values inherit the bound of the first member's value. -/
lemma genOneofWith_depth (recurse : String → Except String JValue) (D : Nat)
    (HD : ∀ name v, recurse name = .ok v → jdepth v ≤ D) :
    ∀ ofs v, genOneofWith recurse ofs = .ok (some v) → jdepth v ≤ D := by
  intro ofs v h
  cases ofs with
  | nil => simp [genOneofWith] at h
  | cons f0 tl =>
    cases hs : genScalarWith recurse f0 with
    | error e => simp [genOneofWith, hs] at h
    | ok x =>
      simp only [genOneofWith, hs, Except.ok.injEq, Option.some.injEq] at h
      subst h
      exact genScalarWith_depth recurse D HD f0 x hs

/-- Any stored field value is at most one level above the nested-message
bound. -/
lemma genFieldWith_depth (recurse : String → Except String JValue) (D : Nat)
    (HD : ∀ name v, recurse name = .ok v → jdepth v ≤ D) :
    ∀ field v, genFieldWith recurse field = .ok (some v) → jdepth v ≤ D + 1 := by
  intro field v h
  unfold genFieldWith at h
  split at h
  · rename_i kf vf heq
    cases hm : genMapWith recurse kf vf with
    | error e => rw [hm] at h; cases h
    | ok x =>
      rw [hm] at h
      simp only [Except.ok.injEq, Option.some.injEq] at h
      subst h
      exact genMapWith_depth recurse D HD kf vf x hm
  · split at h
    · cases hrep : genRepeatedWith recurse field with
      | error e => rw [hrep] at h; cases h
      | ok x =>
        rw [hrep] at h
        simp only [Except.ok.injEq, Option.some.injEq] at h
        subst h
        exact genRepeatedWith_depth recurse D HD field x hrep
    · split at h
      · rename_i ofs heq
        have := genOneofWith_depth recurse D HD ofs v h
        omega
      · cases hs : genScalarWith recurse field with
        | error e => rw [hs] at h; cases h
        | ok x =>
          rw [hs] at h
          simp only [Except.ok.injEq, Option.some.injEq] at h
          subst h
          have := genScalarWith_depth recurse D HD field x hs
          omega

/-- The field loop keeps the whole object one level above the
nested-message bound. -/
lemma genFieldsWith_depth (recurse : String → Except String JValue)
    (options : ExampleOptions) (D : Nat)
    (HD : ∀ name v, recurse name = .ok v → jdepth v ≤ D) :
    ∀ fields kvs, genFieldsWith recurse options fields = .ok kvs →
      jdepthFields kvs ≤ D + 1 := by
  intro fields
  induction fields with
  | nil =>
    intro kvs h
    cases h
    simp [jdepthFields]
  | cons field rest ih =>
    intro kvs h
    unfold genFieldsWith at h
    split at h
    · cases hf : genFieldWith recurse field with
      | error e => rw [hf] at h; cases h
      | ok o =>
        rw [hf] at h
        cases o with
        | none => exact ih kvs h
        | some v =>
          cases hrest : genFieldsWith recurse options rest with
          | error e => rw [hrest] at h; cases h
          | ok kvs2 =>
            rw [hrest] at h
            cases h
            have h1 := genFieldWith_depth recurse D HD field v hf
            have h2 := ih kvs2 hrest
            simp only [jdepthFields]
            omega
    · exact ih kvs h

/-- Every well-known-type shortcut value is at most three levels deep. -/
lemma generateWellKnownType_depth :
    ∀ name v, generateWellKnownType name = some v → jdepth v ≤ 3 := by
  intro name v h
  unfold generateWellKnownType at h
  split at h <;>
    first
      | (simp only [Option.some.injEq] at h
         subst h
         simp [jdepth, jdepthFields, jdepthList])
      | cases h

/-- The generated value of a message is bounded by twice the fuel plus
one. -/
lemma genMessageValue_depth (env : String → List FieldDescr)
    (options : ExampleOptions) :
    ∀ f visited name v, genMessageValue env options f visited name = .ok v →
      jdepth v ≤ 2 * f + 1 := by
  intro f
  induction f with
  | zero =>
    intro visited name v h
    rw [genMessageValue] at h
    cases h
    simp [jdepth, jdepthFields]
  | succ f ih =>
    intro visited name v h
    rw [genMessageValue] at h
    split at h
    · cases h
      simp only [jdepth, jdepthFields]
      omega
    · cases hw : generateWellKnownType name with
      | some wv =>
        rw [hw] at h
        cases h
        have := generateWellKnownType_depth name v hw
        omega
      | none =>
        rw [hw] at h
        cases hg : genFieldsWith (genMessageValue env options f (name :: visited))
            options (env name) with
        | error e => rw [hg] at h; cases h
        | ok kvs =>
          rw [hg] at h
          cases h
          have := genFieldsWith_depth
            (genMessageValue env options f (name :: visited)) options (2 * f + 1)
            (fun nm w hw2 => ih (name :: visited) nm w hw2) (env name) kvs hg
          simp only [jdepth]
          omega

/-- C7: example generation always terminates with a value whose nesting
is bounded in terms of the (defaulted) max depth; a message already on
the visited stack yields exactly the one-key `<recursive>` sentinel and
recursion stops there; on the one-field cyclic schema the output holds
exactly one sentinel, and on the two-branch cyclic schema each cycle
entry point contributes exactly one. -/
theorem example_generation_bounded :
    (∀ (env : String → List FieldDescr) (options : ExampleOptions) (msgName : String)
        (v : JValue),
      generateExampleValue env options msgName = .ok v →
      jdepth v ≤
        2 * ((if options.maxDepth = 0 then (5 : Int) else options.maxDepth).toNat) + 1) ∧
    (∀ (env : String → List FieldDescr) (options : ExampleOptions) (f : Nat)
        (visited : List String) (msgName : String), msgName ∈ visited →
      genMessageValue env options (f + 1) visited msgName =
        .ok (.obj [("<recursive>", .bool true)])) ∧
    generateExampleValue cyclicEnv defaultExampleOptions "test.Node" =
      .ok (.obj [("child", .obj [("<recursive>", .bool true)])]) ∧
    generateExampleValue treeEnv defaultExampleOptions "test.Tree" =
      .ok (.obj [("left", .obj [("<recursive>", .bool true)]),
                 ("right", .obj [("<recursive>", .bool true)])]) := by
  refine ⟨?_, ?_, rfl, rfl⟩
  · intro env options msgName v h
    by_cases h0 : options.maxDepth = 0
    · simp only [generateExampleValue, h0, if_true] at h
      have := genMessageValue_depth env { options with maxDepth := 5 }
        ((5 : Int).toNat) [] msgName v h
      simpa [h0] using this
    · simp only [generateExampleValue, h0, if_false] at h
      have := genMessageValue_depth env options options.maxDepth.toNat [] msgName v h
      simpa [h0] using this
  · intro env options f visited msgName hmem
    rw [genMessageValue, if_pos hmem]

/-- C7 (witness): the bound and the stack-hit sentinel at the concrete
cyclic schema. -/
theorem example_generation_bounded_witness :
    jdepth (.obj [("child", .obj [("<recursive>", .bool true)])]) ≤
      2 * ((if defaultExampleOptions.maxDepth = 0 then (5 : Int)
        else defaultExampleOptions.maxDepth).toNat) + 1 ∧
    genMessageValue cyclicEnv defaultExampleOptions (4 + 1) ["test.Node"] "test.Node" =
      .ok (.obj [("<recursive>", .bool true)]) :=
  ⟨example_generation_bounded.1 cyclicEnv defaultExampleOptions "test.Node"
      (.obj [("child", .obj [("<recursive>", .bool true)])]) rfl,
   example_generation_bounded.2.1 cyclicEnv defaultExampleOptions 4 ["test.Node"]
      "test.Node" (by decide)⟩

end Reflect
